import Mathlib

/-!
Shallow embedding of the receiving & cost-allocation workflow of the
resale-inventory back office (backend/app): purchase orders, purchase-order
lines, inventory cohorts, receiving/inventory events, and the operations
`commit_receiving`, `refresh_po_status`, `create_po` (with its
`next_seq_for_source` numbering), `lock_po` and inventory `adjust`.

The relational store is a record of lists of rows; SQL `SYSDATETIME()` is a
`now : Nat` parameter (timestamps already truncated to the DATETIME2(3)
precision the code compares at); SQLAlchemy transactions (`with db.begin()`,
commit/rollback-on-error) are `runTxn`, which keeps the pre-transaction
state when the operation returns an error.  Python `float` money values are
modelled as `Rat` (the code only copies and zero-coerces them, never does
float-specific arithmetic on the paths modelled here).
-/

/-- Application error as raised by `AppError(message, code)` (the optional
`details` payload is not modelled). -/
structure AppError where
  message : String
  code : Nat
deriving Repr, DecidableEq

/-- Row of dbo.Sources (only the columns the modelled code reads). -/
structure Source where
  source_id : Nat
  code : String
  is_active : Bool
deriving Repr, DecidableEq

/-- Row of dbo.PurchaseOrders (columns the modelled code reads or writes). -/
structure PurchaseOrder where
  purchase_order_id : Nat
  po_number : String
  source_id : Nat
  status : String
  is_locked : Bool
  subtotal : Rat
  tax : Rat
  shipping : Rat
  fees : Rat
  discounts : Rat
  updated_at : Nat
deriving Repr, DecidableEq

/-- Row of dbo.PurchaseOrderItems (columns the modelled code reads or writes). -/
structure PoLine where
  purchase_order_item_id : Nat
  purchase_order_id : Nat
  variant_id : Nat
  catalog_product_id : Nat
  quantity_expected : Int
  quantity_received : Int
  receive_status : String
  cost_assignment_method : String
  allocated_unit_cost : Option Rat
  updated_at : Nat
deriving Repr, DecidableEq

/-- Row of dbo.InventoryItems (columns the modelled code reads or writes). -/
structure InventoryItem where
  inventory_item_id : Nat
  purchase_order_item_id : Nat
  variant_id : Nat
  seller_sku : String
  quantity : Int
  allocated_unit_cost : Rat
  condition_grade_id : Nat
  status : String
  updated_at : Nat
deriving Repr, DecidableEq

/-- Row of dbo.ReceivingEvents (append-only audit log). -/
structure ReceivingEvent where
  purchase_order_id : Nat
  purchase_order_item_id : Nat
  variant_id : Nat
  event_type : String
  quantity : Int
  notes : Option String
deriving Repr, DecidableEq

/-- Row of dbo.InventoryEvents (append-only audit log). -/
structure InventoryEvent where
  inventory_item_id : Nat
  event_type : String
  reason : String
  delta : Int
  quantity_before : Int
  quantity_after : Int
  from_status : String
  to_status : String
  notes : Option String
deriving Repr, DecidableEq

/-- Row of dbo.ConditionGrades. -/
structure ConditionGrade where
  condition_grade_id : Nat
  code : String
deriving Repr, DecidableEq

/-- The relational store: the tables the modelled operations touch, plus
identity counters for the two tables whose generated keys the code reads
back (`OUTPUT inserted....`). -/
structure DB where
  sources : List Source
  purchase_orders : List PurchaseOrder
  po_items : List PoLine
  inventory_items : List InventoryItem
  receiving_events : List ReceivingEvent
  inventory_events : List InventoryEvent
  condition_grades : List ConditionGrade
  next_purchase_order_id : Nat
  next_inventory_item_id : Nat
deriving Repr, DecidableEq

/-- A request-scoped database transaction: commit the new state on success,
roll the whole state back on error (`with self.db.begin()` /
commit-on-success, rollback-on-exception). -/
def runTxn {α : Type} (db : DB) (r : Except AppError (DB × α)) :
    DB × Except AppError α :=
  match r with
  | .ok (db', a) => (db', .ok a)
  | .error e => (db, .error e)

/-- Python truthiness of an optional string (`x or default`): `None` and the
empty string both fall through to the default. -/
def pyStrOr (x : Option String) (default : String) : String :=
  match x with
  | none => default
  | some s => if s.data.isEmpty then default else s

/-- Python `f"{n:0wd}"` zero-padding of an integer to width `w`. -/
def pyPadZeros (w : Nat) (n : Int) : String :=
  if n < 0 then
    let s := toString (-n)
    "-" ++ (if s.length + 1 < w then String.mk (List.replicate (w - 1 - s.length) '0') ++ s else s)
  else
    let s := toString n
    if s.length < w then String.mk (List.replicate (w - s.length) '0') ++ s else s

/-- ReceivingCommitItem of the request schema. -/
structure ReceivingCommitItem where
  purchase_order_item_id : Nat
  qty_to_receive : Int
  sku : Option String
  damaged : Bool
  short : Bool
  updated_at : Nat
deriving Repr, DecidableEq

/-- ReceivingCommitRequest of the request schema. -/
structure ReceivingCommitRequest where
  purchase_order_id : Nat
  items : List ReceivingCommitItem
deriving Repr, DecidableEq

/-- ReceivingRepo.get_po_header: po_number, status, is_locked of the PO, 404
when absent. -/
def get_po_header (db : DB) (po_id : Nat) :
    Except AppError (String × String × Bool) :=
  match db.purchase_orders.find? (fun po => po.purchase_order_id == po_id) with
  | none => .error ⟨"PO " ++ toString po_id ++ " not found", 404⟩
  | some po => .ok (po.po_number, po.status, po.is_locked)

/-- ReceivingRepo.get_unknown_condition_grade_id: id of the UNKNOWN sentinel
grade, 500 when the seed row is missing. -/
def get_unknown_condition_grade_id (db : DB) : Except AppError Nat :=
  match db.condition_grades.find? (fun g => g.code == "UNKNOWN") with
  | none => .error ⟨"Condition grade UNKNOWN not found (seed missing)", 500⟩
  | some g => .ok g.condition_grade_id

/-- ReceivingRepo.get_po_item_context: the line row joined with its PO's
po_number, 404 when absent. -/
def get_po_item_context (db : DB) (purchase_order_item_id : Nat) :
    Except AppError (PoLine × String) :=
  match db.po_items.find?
      (fun l => l.purchase_order_item_id == purchase_order_item_id) with
  | none => .error ⟨"PO line " ++ toString purchase_order_item_id ++ " not found", 404⟩
  | some l =>
    match db.purchase_orders.find?
        (fun po => po.purchase_order_id == l.purchase_order_id) with
    | none => .error ⟨"PO line " ++ toString purchase_order_item_id ++ " not found", 404⟩
    | some po => .ok (l, po.po_number)

/-- ReceivingRepo.seller_sku_exists: does any inventory row carry this SKU. -/
def seller_sku_exists (db : DB) (sku : String) : Bool :=
  db.inventory_items.any (fun ii => ii.seller_sku == sku)

/-- ReceivingRepo.insert_inventory_item: append the cohort row, returning
its generated id. -/
def insert_inventory_item (db : DB) (now : Nat) (purchase_order_item_id variant_id : Nat)
    (seller_sku : String) (quantity : Int) (allocated_unit_cost : Rat)
    (condition_grade_id : Nat) (status : String) : DB × Nat :=
  let iid := db.next_inventory_item_id
  ({ db with
      inventory_items := db.inventory_items ++
        [{ inventory_item_id := iid
           purchase_order_item_id := purchase_order_item_id
           variant_id := variant_id
           seller_sku := seller_sku
           quantity := quantity
           allocated_unit_cost := allocated_unit_cost
           condition_grade_id := condition_grade_id
           status := status
           updated_at := now }]
      next_inventory_item_id := iid + 1 },
   iid)

/-- ReceivingRepo.insert_event: append a receiving audit event. -/
def insert_event (db : DB) (purchase_order_id purchase_order_item_id variant_id : Nat)
    (event_type : String) (quantity : Int) (notes : Option String := none) : DB :=
  { db with
      receiving_events := db.receiving_events ++
        [{ purchase_order_id := purchase_order_id
           purchase_order_item_id := purchase_order_item_id
           variant_id := variant_id
           event_type := event_type
           quantity := quantity
           notes := notes }] }

/-- Row transformer of ReceivingRepo.update_poi_receive's UPDATE: rows whose
key and concurrency token both match get the quantity delta, the new status
and a fresh updated_at; other rows are untouched. -/
def updPoiRow (purchase_order_item_id : Nat) (qty_delta : Int) (new_status : String)
    (expected_updated_at now : Nat) (l : PoLine) : PoLine :=
  if l.purchase_order_item_id == purchase_order_item_id &&
      l.updated_at == expected_updated_at then
    { l with
        quantity_received := l.quantity_received + qty_delta
        receive_status := new_status
        updated_at := now }
  else l

/-- ReceivingRepo.update_poi_receive: guarded UPDATE keyed on the line id and
the echoed `updated_at` token; 409 unless exactly one row matched. -/
def update_poi_receive (db : DB) (purchase_order_item_id : Nat) (qty_delta : Int)
    (new_status : String) (expected_updated_at now : Nat) : Except AppError DB :=
  let matched := db.po_items.countP
    (fun l => l.purchase_order_item_id == purchase_order_item_id &&
              l.updated_at == expected_updated_at)
  if matched == 1 then
    .ok { db with
            po_items := db.po_items.map
              (updPoiRow purchase_order_item_id qty_delta new_status
                expected_updated_at now) }
  else
    .error ⟨"PO line changed by someone else; refresh and retry", 409⟩

/-- ReceivingRepo.get_poi_totals: aggregate expected/received sums, short-line
count and line count over the PO's lines (SQL SUM over no rows is NULL,
coalesced to 0 by the Python caller). -/
def get_poi_totals (db : DB) (po_id : Nat) : Int × Int × Nat × Nat :=
  let ls := db.po_items.filter (fun l => l.purchase_order_id == po_id)
  ((ls.map (fun l => l.quantity_expected)).sum,
   (ls.map (fun l => l.quantity_received)).sum,
   ls.countP (fun l => l.receive_status == "short"),
   ls.length)

/-- ReceivingRepo.refresh_po_status: recompute the PO's aggregate status from
the line totals and persist it (no-op when total_expected is 0). -/
def refresh_po_status (db : DB) (po_id : Nat) (now : Nat) : DB :=
  let t := get_poi_totals db po_id
  let total_expected := t.1
  let total_received := t.2.1
  let short_lines := t.2.2.1
  if total_expected == 0 then db
  else
    let new_status :=
      if total_received ≥ total_expected then
        if short_lines > 0 then "closed_with_exceptions" else "received"
      else if total_received > 0 then "partially_received"
      else "open"
    { db with
        purchase_orders := db.purchase_orders.map (fun po =>
          if po.purchase_order_id == po_id then
            { po with status := new_status, updated_at := now }
          else po) }

/-- ReceivingService._build_sku_simple: po_number followed by the 4-digit
zero-padded line id. -/
def build_sku_simple (po_number : String) (purchase_order_item_id : Nat) : String :=
  po_number ++ pyPadZeros 4 (purchase_order_item_id : Int)

/-- Body of the per-item loop of ReceivingService.commit_receiving: validate
the line, skip zero quantities, create the cohort, append the audit events,
derive the new line status and perform the token-guarded line update.
Returns the ids of inventory items created for this item. -/
def commit_item (db : DB) (req_po_id : Nat) (po_number : String)
    (unknown_cond_id : Nat) (now : Nat) (item : ReceivingCommitItem) :
    Except AppError (DB × List Nat) := do
  let (ctx, _ctx_po_number) ← get_po_item_context db item.purchase_order_item_id
  if ctx.purchase_order_id ≠ req_po_id then
    throw ⟨"PO item " ++ toString item.purchase_order_item_id ++
           " does not belong to PO " ++ toString req_po_id, 400⟩
  let remaining_before := max 0 (ctx.quantity_expected - ctx.quantity_received)
  if item.qty_to_receive < 0 then
    throw ⟨"qty_to_receive cannot be negative", 400⟩
  if item.qty_to_receive == 0 then
    return (db, [])
  let seller_sku := pyStrOr item.sku
    (build_sku_simple po_number ctx.purchase_order_item_id)
  if seller_sku_exists db seller_sku then
    throw ⟨"seller_sku " ++ seller_sku ++ " already exists", 409⟩
  let status := if item.damaged then "Damaged" else "Pending"
  let alloc_cost := ctx.allocated_unit_cost.getD 0
  let (db, inv_id) := insert_inventory_item db now ctx.purchase_order_item_id
    ctx.variant_id seller_sku item.qty_to_receive alloc_cost unknown_cond_id status
  let db := insert_event db req_po_id ctx.purchase_order_item_id ctx.variant_id
    "receive" item.qty_to_receive
  let db :=
    if item.damaged then
      insert_event db req_po_id ctx.purchase_order_item_id ctx.variant_id
        "damage" item.qty_to_receive
    else db
  let overage := max 0 (item.qty_to_receive - remaining_before)
  let db :=
    if overage > 0 then
      insert_event db req_po_id ctx.purchase_order_item_id ctx.variant_id
        "overage" overage
    else db
  let new_received_total := ctx.quantity_received + item.qty_to_receive
  let (new_status, db) :=
    if item.short && new_received_total < ctx.quantity_expected then
      let short_qty := max 0 (ctx.quantity_expected - new_received_total)
      if short_qty > 0 then
        ("short",
         insert_event db req_po_id ctx.purchase_order_item_id ctx.variant_id
           "short" short_qty)
      else ("short", db)
    else if new_received_total ≥ ctx.quantity_expected then ("received", db)
    else if new_received_total > 0 then ("partial", db)
    else (pyStrOr (some ctx.receive_status) "pending", db)
  let db ← update_poi_receive db ctx.purchase_order_item_id item.qty_to_receive
    new_status item.updated_at now
  return (db, [inv_id])

/-- Sequential processing of the items of one commit call, accumulating the
created inventory item ids in order. -/
def commit_items (req_po_id : Nat) (po_number : String) (unknown_cond_id : Nat)
    (now : Nat) : DB → List ReceivingCommitItem → Except AppError (DB × List Nat)
  | db, [] => .ok (db, [])
  | db, item :: rest => do
    let (db1, ids1) ← commit_item db req_po_id po_number unknown_cond_id now item
    let (db2, ids2) ← commit_items req_po_id po_number unknown_cond_id now db1 rest
    return (db2, ids1 ++ ids2)

/-- ReceivingService.commit_receiving: the transactional body — lock check,
per-item processing, and the final PO status refresh.  The created inventory
item ids are the success payload; wrap with `runTxn` for the
commit/rollback-at-the-boundary semantics. -/
def commit_receiving (db : DB) (req : ReceivingCommitRequest) (now : Nat) :
    Except AppError (DB × List Nat) := do
  let (po_number, _status, is_locked) ← get_po_header db req.purchase_order_id
  if !is_locked then
    throw ⟨"PO must be locked before receiving", 409⟩
  let unknown_cond_id ← get_unknown_condition_grade_id db
  let (db1, created_ids) ←
    commit_items req.purchase_order_id po_number unknown_cond_id now db req.items
  let db2 := refresh_po_status db1 req.purchase_order_id now
  return (db2, created_ids)

/-- T-SQL TRY_CONVERT(INT, s) on the suffixes the numbering query extracts:
the empty string converts to 0, an all-digit string to its value, anything
else to NULL. -/
def sqlTryConvertInt (s : String) : Option Int :=
  if s.data.isEmpty then some 0
  else if s.data.all Char.isDigit then
    some (s.data.foldl (fun acc c => acc * 10 + ((c.toNat : Int) - ('0'.toNat : Int))) 0)
  else none

/-- SQL MAX aggregate over a list of nullable ints: NULL values are ignored,
NULL when nothing remains. -/
def sqlMax : List (Option Int) → Option Int
  | [] => none
  | none :: rest => sqlMax rest
  | some v :: rest =>
    match sqlMax rest with
    | none => some v
    | some m => some (max v m)

/-- PurchaseOrdersRepo.next_seq_for_source: max integer tail of po_number
over this source's rows with the code as prefix (SUBSTRING from
LEN(code)+1 for 64 chars), NULL/0 coalesced, plus one. -/
def next_seq_for_source (db : DB) (source_id : Nat) (source_code : String) : Int :=
  let tails := db.purchase_orders.filterMap (fun po =>
    if po.source_id == source_id && source_code.data.isPrefixOf po.po_number.data then
      some (sqlTryConvertInt
        (String.mk ((po.po_number.data.drop source_code.data.length).take 64)))
    else none)
  ((sqlMax tails).getD 0) + 1

/-- PurchaseOrdersRepo.get_source_code: code of the active source row, 400
when absent or inactive. -/
def get_source_code (db : DB) (source_id : Nat) : Except AppError String :=
  match db.sources.find? (fun s => s.source_id == source_id && s.is_active) with
  | none => .error ⟨"Invalid source_id=" ++ toString source_id, 400⟩
  | some s => .ok s.code

/-- Monetary header fields of a create-PO payload (fields the modelled
validation and insert read; `None` money fields already coalesced to 0 the
way `payload.x or 0` does). -/
structure CreatePoPayload where
  source_id : Nat
  subtotal : Rat
  tax : Rat
  shipping : Rat
  fees : Rat
  discounts : Rat
deriving Repr, DecidableEq

/-- PurchaseOrdersRepo.insert_po_header: append the header row in
open/unlocked state, or signal the unique-index violation on
(source_id, po_number) as an IntegrityError (`.error ()`). -/
def insert_po_header (db : DB) (now : Nat) (po_number : String)
    (p : CreatePoPayload) : Except Unit (DB × PurchaseOrder) :=
  if db.purchase_orders.any
      (fun po => po.source_id == p.source_id && po.po_number == po_number) then
    .error ()
  else
    let row : PurchaseOrder :=
      { purchase_order_id := db.next_purchase_order_id
        po_number := po_number
        source_id := p.source_id
        status := "open"
        is_locked := false
        subtotal := p.subtotal
        tax := p.tax
        shipping := p.shipping
        fees := p.fees
        discounts := p.discounts
        updated_at := now }
    .ok ({ db with
             purchase_orders := db.purchase_orders ++ [row]
             next_purchase_order_id := db.next_purchase_order_id + 1 },
         row)

/-- PurchaseOrderService.create_po: validate the money fields, resolve the
source code, then attempt allocate-sequence + insert with exactly one retry
on a uniqueness collision, surfacing 409 when the retry collides too.
`f1` and `f2` are the concurrent interference committed by other sessions
between each attempt's sequence scan and its insert (take them to be `id`
for an uncontended call); a failed insert is rolled back, but interference
already committed persists. -/
def create_po (db : DB) (p : CreatePoPayload) (now : Nat) (f1 f2 : DB → DB) :
    Except AppError (DB × PurchaseOrder) := do
  if p.subtotal < 0 then throw ⟨"Invalid subtotal: must be >= 0", 400⟩
  if p.tax < 0 then throw ⟨"Invalid tax: must be >= 0", 400⟩
  if p.shipping < 0 then throw ⟨"Invalid shipping: must be >= 0", 400⟩
  if p.fees < 0 then throw ⟨"Invalid fees: must be >= 0", 400⟩
  if p.discounts < 0 then throw ⟨"Invalid discounts: must be >= 0", 400⟩
  let source_code ← get_source_code db p.source_id
  let seq1 := next_seq_for_source db p.source_id source_code
  let po_number1 := source_code ++ pyPadZeros 3 seq1
  let db1 := f1 db
  match insert_po_header db1 now po_number1 p with
  | .ok r => return r
  | .error _ =>
    let seq2 := next_seq_for_source db1 p.source_id source_code
    let po_number2 := source_code ++ pyPadZeros 3 seq2
    let db2 := f2 db1
    match insert_po_header db2 now po_number2 p with
    | .ok r => return r
    | .error _ =>
      throw ⟨"Could not allocate a unique PO number, please retry", 409⟩

/-- PurchaseOrdersRepo.get_po_is_locked: is_locked of the PO, 404 when
absent. -/
def get_po_is_locked (db : DB) (po_id : Nat) : Except AppError Bool :=
  match db.purchase_orders.find? (fun po => po.purchase_order_id == po_id) with
  | none => .error ⟨"PO " ++ toString po_id ++ " not found", 404⟩
  | some po => .ok po.is_locked

/-- PurchaseOrdersRepo.any_manual_line_missing_cost: does the PO have a
manual-method line whose allocated_unit_cost is NULL. -/
def any_manual_line_missing_cost (db : DB) (po_id : Nat) : Bool :=
  db.po_items.any (fun l =>
    l.purchase_order_id == po_id &&
    l.cost_assignment_method == "manual" &&
    l.allocated_unit_cost == none)

/-- PurchaseOrdersRepo.mark_po_locked: set is_locked on the PO row, 404 when
absent. -/
def mark_po_locked (db : DB) (po_id : Nat) (now : Nat) : Except AppError DB :=
  match db.purchase_orders.find? (fun po => po.purchase_order_id == po_id) with
  | none => .error ⟨"PO " ++ toString po_id ++ " not found", 404⟩
  | some _ =>
    .ok { db with
            purchase_orders := db.purchase_orders.map (fun po =>
              if po.purchase_order_id == po_id then
                { po with is_locked := true, updated_at := now }
              else po) }

/-- PurchaseOrderService.lock_po: already-locked and manual-cost guards, the
cost-allocation stored procedure (an opaque transactional mutation `alloc`,
EXEC dbo.usp_AllocatePurchaseOrderCosts), then mark locked. -/
def lock_po (db : DB) (po_id : Nat) (alloc : DB → DB) (now : Nat) :
    Except AppError DB := do
  let locked ← get_po_is_locked db po_id
  if locked then throw ⟨"PO is already locked", 409⟩
  if any_manual_line_missing_cost db po_id then
    throw ⟨"Manual lines must have allocated_unit_cost before locking", 400⟩
  let db1 := alloc db
  mark_po_locked db1 po_id now

/-- Allowed adjustment reasons (schemas/inventory_adjust.py). -/
def ALLOWED_REASONS : List String := ["cycle_count", "damage", "loss", "correction", "found"]

/-- Allowed explicit inventory statuses (schemas/inventory_adjust.py). -/
def ALLOWED_STATUSES : List String := ["Pending", "Active", "Damaged", "Archived"]

/-- AdjustInventoryRequest of the request schema (`auto_archive_when_zero`
is `Optional[bool] = True`, so `none` only arises from an explicit null). -/
structure AdjustInventoryRequest where
  delta : Int
  reason : String
  set_status : Option String
  notes : Option String
  auto_archive_when_zero : Option Bool
deriving Repr, DecidableEq

/-- Python `(reason or "").strip().lower()` normalisation. -/
def pyStripLower (s : String) : String :=
  String.mk ((((s.data.dropWhile (fun c => c.isWhitespace)).reverse.dropWhile
    (fun c => c.isWhitespace)).reverse).map Char.toLower)

/-- InventoryRepo.update_item_qty_status: set quantity/status/updated_at on
the item row, 500 unless exactly one row matched. -/
def update_item_qty_status (db : DB) (inventory_item_id : Nat) (new_qty : Int)
    (new_status : String) (now : Nat) : Except AppError DB :=
  let matched := db.inventory_items.countP
    (fun ii => ii.inventory_item_id == inventory_item_id)
  if matched == 1 then
    .ok { db with
            inventory_items := db.inventory_items.map (fun ii =>
              if ii.inventory_item_id == inventory_item_id then
                { ii with quantity := new_qty, status := new_status, updated_at := now }
              else ii) }
  else .error ⟨"Failed to update inventory item", 500⟩

/-- InventoryRepo.insert_inventory_event: append an adjustment audit row
(event_type is the literal adjust). -/
def insert_inventory_event (db : DB) (inventory_item_id : Nat) (reason : String)
    (delta qty_before qty_after : Int) (from_status to_status : String)
    (notes : Option String) : DB :=
  { db with
      inventory_events := db.inventory_events ++
        [{ inventory_item_id := inventory_item_id
           event_type := "adjust"
           reason := reason
           delta := delta
           quantity_before := qty_before
           quantity_after := qty_after
           from_status := from_status
           to_status := to_status
           notes := notes }] }

/-- InventoryAdjustService.adjust: enum validation, load, non-negativity
check on the resulting quantity, status resolution (explicit set_status,
else auto-archive at zero, else unchanged), then the quantity/status update
and its paired InventoryEvent. -/
def adjust (db : DB) (inventory_item_id : Nat) (req : AdjustInventoryRequest)
    (now : Nat) : Except AppError DB := do
  let reason := pyStripLower req.reason
  if !(ALLOWED_REASONS.contains reason) then
    throw ⟨"Invalid reason " ++ req.reason, 400⟩
  let new_status_explicit : Option String ←
    match req.set_status with
    | none => pure none
    | some s =>
      if ALLOWED_STATUSES.contains s then pure (some s)
      else throw ⟨"Invalid status " ++ s, 400⟩
  let row ←
    match db.inventory_items.find?
        (fun ii => ii.inventory_item_id == inventory_item_id) with
    | none =>
      throw ⟨"Inventory item " ++ toString inventory_item_id ++ " not found", 404⟩
    | some r => pure r
  let qty_before := row.quantity
  let status_before := row.status
  let delta := req.delta
  let qty_after := qty_before + delta
  if qty_after < 0 then
    throw ⟨"Insufficient quantity for this adjustment", 400⟩
  let status_after :=
    match new_status_explicit with
    | some s => s
    | none =>
      if (req.auto_archive_when_zero.getD true) && qty_after == 0 then "Archived"
      else status_before
  let db1 ← update_item_qty_status db inventory_item_id qty_after status_after now
  return insert_inventory_event db1 inventory_item_id reason delta qty_before
    qty_after status_before status_after req.notes

/-- Aggregate PO-status state machine, written from the spec as amended for
the code's totals-based derivation: received / closed_with_exceptions /
partially_received / open from the summed line totals, previous status kept
when nothing is expected. -/
def po_status_aggregate (lines : List PoLine) (po_id : Nat) (prev : String) : String :=
  let ls := lines.filter (fun l => l.purchase_order_id == po_id)
  let total_expected : Int := (ls.map (fun l => l.quantity_expected)).sum
  let total_received : Int := (ls.map (fun l => l.quantity_received)).sum
  let short_lines : Nat := ls.countP (fun l => l.receive_status == "short")
  if total_expected = 0 then prev
  else if total_received ≥ total_expected then
    if short_lines > 0 then "closed_with_exceptions" else "received"
  else if total_received > 0 then "partially_received"
  else "open"

/-- A request-scoped transaction for operations returning only the new
state: keep it on success, roll back to the pre-transaction state on
error. -/
def runTxn0 (db : DB) (r : Except AppError DB) : DB × Except AppError Unit :=
  match r with
  | .ok db' => (db', .ok ())
  | .error e => (db, .error e)

/-- Fixture: a locked two-line PO (expected 5 and 3) ready for receiving, as
in the spec's status-derivation scenario. -/
def dbScenC1 : DB :=
  { sources := [⟨1, "EB", true⟩]
    purchase_orders := [⟨1, "EB001", 1, "open", true, 0, 0, 0, 0, 0, 5⟩]
    po_items := [⟨101, 1, 11, 21, 5, 0, "pending", "manual", some 2, 10⟩,
                 ⟨102, 1, 12, 22, 3, 0, "pending", "manual", some 3, 10⟩]
    inventory_items := []
    receiving_events := []
    inventory_events := []
    condition_grades := [⟨7, "UNKNOWN"⟩]
    next_purchase_order_id := 2
    next_inventory_item_id := 1 }

/-- Fixture: the spec scenario's commit — receive 5 of line A, 2 of line B
with short=true. -/
def reqScenC1 : ReceivingCommitRequest :=
  { purchase_order_id := 1
    items := [⟨101, 5, none, false, false, 10⟩, ⟨102, 2, none, false, true, 10⟩] }

/-- Fixture: a locked single-line PO for the concurrency-token claims. -/
def dbTokC2 : DB :=
  { sources := [⟨1, "EB", true⟩]
    purchase_orders := [⟨1, "EB001", 1, "open", true, 0, 0, 0, 0, 0, 5⟩]
    po_items := [⟨101, 1, 11, 21, 5, 0, "pending", "manual", some 2, 10⟩]
    inventory_items := []
    receiving_events := []
    inventory_events := []
    condition_grades := [⟨7, "UNKNOWN"⟩]
    next_purchase_order_id := 2
    next_inventory_item_id := 1 }

/-- Fixture: a locked single-line PO for the conservation claim. -/
def dbConsC3 : DB :=
  { sources := [⟨1, "EB", true⟩]
    purchase_orders := [⟨1, "EB001", 1, "open", true, 0, 0, 0, 0, 0, 5⟩]
    po_items := [⟨101, 1, 11, 21, 5, 1, "partial", "manual", some 2, 10⟩]
    inventory_items := [⟨1, 101, 11, "OLD1", 1, 2, 7, "Pending", 4⟩]
    receiving_events := [⟨1, 101, 11, "receive", 1, none⟩]
    inventory_events := []
    condition_grades := [⟨7, "UNKNOWN"⟩]
    next_purchase_order_id := 2
    next_inventory_item_id := 2 }

/-- Fixture: a source with two existing POs EB001 and EB002 for the
numbering claim. -/
def dbSeqC4 : DB :=
  { sources := [⟨1, "EB", true⟩]
    purchase_orders := [⟨1, "EB001", 1, "open", false, 0, 0, 0, 0, 0, 5⟩,
                        ⟨2, "EB002", 1, "open", false, 0, 0, 0, 0, 0, 5⟩]
    po_items := []
    inventory_items := []
    receiving_events := []
    inventory_events := []
    condition_grades := [⟨7, "UNKNOWN"⟩]
    next_purchase_order_id := 3
    next_inventory_item_id := 1 }

/-- Fixture: payload with zeroed money fields for the numbering claim. -/
def payloadC4 : CreatePoPayload :=
  { source_id := 1, subtotal := 0, tax := 0, shipping := 0, fees := 0, discounts := 0 }

/-- Fixture: PO 1 unlocked with a manual line missing its cost, PO 2 already
locked, for the lock-precondition claim. -/
def dbLockC5 : DB :=
  { sources := [⟨1, "EB", true⟩]
    purchase_orders := [⟨1, "EB001", 1, "open", false, 0, 0, 0, 0, 0, 5⟩,
                        ⟨2, "EB002", 1, "open", true, 0, 0, 0, 0, 0, 5⟩]
    po_items := [⟨101, 1, 11, 21, 5, 0, "pending", "manual", none, 10⟩]
    inventory_items := []
    receiving_events := []
    inventory_events := []
    condition_grades := [⟨7, "UNKNOWN"⟩]
    next_purchase_order_id := 3
    next_inventory_item_id := 1 }

/-- Fixture: a locked single-line PO for the zero-quantity skip claim. -/
def dbZeroC6 : DB :=
  { sources := [⟨1, "EB", true⟩]
    purchase_orders := [⟨1, "EB001", 1, "open", true, 0, 0, 0, 0, 0, 5⟩]
    po_items := [⟨101, 1, 11, 21, 5, 2, "partial", "manual", some 2, 10⟩]
    inventory_items := []
    receiving_events := []
    inventory_events := []
    condition_grades := [⟨7, "UNKNOWN"⟩]
    next_purchase_order_id := 2
    next_inventory_item_id := 1 }

/-- Fixture: one inventory cohort of quantity 3 for the adjustment claim. -/
def dbAdjC7 : DB :=
  { sources := [⟨1, "EB", true⟩]
    purchase_orders := []
    po_items := []
    inventory_items := [⟨1, 101, 11, "SKU1", 3, 2, 7, "Pending", 4⟩]
    receiving_events := []
    inventory_events := []
    condition_grades := [⟨7, "UNKNOWN"⟩]
    next_purchase_order_id := 1
    next_inventory_item_id := 2 }

/-- Fixture: a locked single-line PO whose default SKU is already taken, for
the duplicate-SKU claim. -/
def dbSkuC8 : DB :=
  { sources := [⟨1, "EB", true⟩]
    purchase_orders := [⟨1, "EB001", 1, "open", true, 0, 0, 0, 0, 0, 5⟩]
    po_items := [⟨101, 1, 11, 21, 5, 0, "pending", "manual", some 2, 10⟩]
    inventory_items := [⟨1, 101, 11, "EB0010101", 2, 2, 7, "Pending", 4⟩]
    receiving_events := []
    inventory_events := []
    condition_grades := [⟨7, "UNKNOWN"⟩]
    next_purchase_order_id := 2
    next_inventory_item_id := 2 }

/-- Fixture: a locked single-line PO for the zero-quantity token claim. -/
def dbZeroTokC9 : DB :=
  { sources := [⟨1, "EB", true⟩]
    purchase_orders := [⟨1, "EB001", 1, "open", true, 0, 0, 0, 0, 0, 5⟩]
    po_items := [⟨101, 1, 11, 21, 5, 0, "pending", "manual", some 2, 10⟩]
    inventory_items := []
    receiving_events := []
    inventory_events := []
    condition_grades := [⟨7, "UNKNOWN"⟩]
    next_purchase_order_id := 2
    next_inventory_item_id := 1 }

/-- Fixture: a locked single-line PO whose line has a NULL allocated unit
cost, for the cost-coercion claim. -/
def dbCostC10 : DB :=
  { sources := [⟨1, "EB", true⟩]
    purchase_orders := [⟨1, "EB001", 1, "open", true, 0, 0, 0, 0, 0, 5⟩]
    po_items := [⟨101, 1, 11, 21, 5, 0, "pending", "manual", none, 10⟩]
    inventory_items := []
    receiving_events := []
    inventory_events := []
    condition_grades := [⟨7, "UNKNOWN"⟩]
    next_purchase_order_id := 2
    next_inventory_item_id := 1 }

-- ===== helper lemmas =====

/-- find? commutes with mapping by a function that preserves the predicate. -/
theorem find_map_pred_stable {α : Type} (p : α → Bool) (f : α → α)
    (hf : ∀ a, p (f a) = p a) :
    ∀ L : List α, (L.map f).find? p = (L.find? p).map f := by
  intro L
  induction L with
  | nil => rfl
  | cons a t ih =>
    by_cases h : p a
    · simp [List.find?, hf, h]
    · simp [List.find?, hf, h, ih]

/-- In a list where the predicate counts exactly one row, every row matching
the predicate is the one find? returned. -/
theorem unique_mem_eq {α : Type} (p : α → Bool) :
    ∀ (L : List α) (a : α), L.countP p = 1 → L.find? p = some a →
      ∀ b ∈ L, p b = true → b = a := by
  intro L
  induction L with
  | nil => intro a _ hf; simp [List.find?] at hf
  | cons c t ih =>
    intro a hc hf b hb hpb
    by_cases h : p c
    · have hac : a = c := by
        simp [List.find?, h] at hf
        exact hf.symm
      have ht : t.countP p = 0 := by
        rw [List.countP_cons, if_pos h] at hc
        omega
      rcases List.mem_cons.mp hb with hb | hb
      · rw [hb, hac]
      · exact absurd hpb (by
          have := (List.countP_eq_zero).mp ht b hb
          simp [this])
    · have hc' : t.countP p = 1 := by
        rw [List.countP_cons, if_neg h] at hc
        omega
      have hf' : t.find? p = some a := by
        simp [List.find?, h] at hf
        exact hf
      rcases List.mem_cons.mp hb with hb | hb
      · rw [hb] at hpb; exact absurd hpb (by simp [h])
      · exact ih a hc' hf' b hb hpb

/-- Counting a conjunction in a list whose first predicate counts exactly
one row reduces to testing the second predicate on that row. -/
theorem countP_conj_unique {α : Type} (p q : α → Bool) (L : List α) (a : α)
    (hc : L.countP p = 1) (hf : L.find? p = some a) :
    L.countP (fun x => p x && q x) = if q a then 1 else 0 := by
  have hmem : a ∈ L := List.mem_of_find?_eq_some hf
  have hmono : L.countP (fun x => p x && q x) ≤ L.countP p :=
    List.countP_mono_left (by intro x _ hx; exact (Bool.and_eq_true_iff.mp hx).1)
  have hpa : p a = true := List.find?_some hf
  by_cases hq : q a = true
  · have h1 : 0 < L.countP (fun x => p x && q x) :=
      List.countP_pos_iff.mpr ⟨a, hmem, by simp [hpa, hq]⟩
    simp only [hq, if_true]
    omega
  · have hz : (if q a then (1 : Nat) else 0) = 0 := by simp [hq]
    rw [hz, List.countP_eq_zero]
    intro b hb hpq
    have hpb : p b = true := (Bool.and_eq_true_iff.mp hpq).1
    have hqb : q b = true := (Bool.and_eq_true_iff.mp hpq).2
    have : b = a := unique_mem_eq p L a hc hf b hb hpb
    rw [this] at hqb
    exact hq hqb

/-- updPoiRow never changes the line's key. -/
theorem updPoiRow_key (poi : Nat) (q : Int) (ns : String) (tok now : Nat) (l : PoLine) :
    (updPoiRow poi q ns tok now l).purchase_order_item_id = l.purchase_order_item_id := by
  unfold updPoiRow; split <;> rfl

/-- updPoiRow never changes the line's parent PO. -/
theorem updPoiRow_po (poi : Nat) (q : Int) (ns : String) (tok now : Nat) (l : PoLine) :
    (updPoiRow poi q ns tok now l).purchase_order_id = l.purchase_order_id := by
  unfold updPoiRow; split <;> rfl

/-- updPoiRow never changes the line's expected quantity. -/
theorem updPoiRow_exp (poi : Nat) (q : Int) (ns : String) (tok now : Nat) (l : PoLine) :
    (updPoiRow poi q ns tok now l).quantity_expected = l.quantity_expected := by
  unfold updPoiRow; split <;> rfl

/-- The status refresh touches only the purchase_orders table. -/
theorem refresh_po_status_frame (db : DB) (po_id now : Nat) :
    (refresh_po_status db po_id now).po_items = db.po_items ∧
    (refresh_po_status db po_id now).inventory_items = db.inventory_items ∧
    (refresh_po_status db po_id now).receiving_events = db.receiving_events ∧
    (refresh_po_status db po_id now).inventory_events = db.inventory_events ∧
    (refresh_po_status db po_id now).condition_grades = db.condition_grades ∧
    (refresh_po_status db po_id now).sources = db.sources ∧
    (refresh_po_status db po_id now).next_inventory_item_id = db.next_inventory_item_id := by
  simp only [refresh_po_status]
  split <;> simp

/-- Processing a commit item with qty_to_receive = 0 is a complete skip: no
state change, no created ids. -/
theorem commit_item_zero (db : DB) (req_po : Nat) (pon : String) (g now : Nat)
    (item : ReceivingCommitItem) (line : PoLine) (hdr : PurchaseOrder)
    (hline : db.po_items.find? (fun l => l.purchase_order_item_id == item.purchase_order_item_id) = some line)
    (hpo : db.purchase_orders.find? (fun po => po.purchase_order_id == req_po) = some hdr)
    (hbel : line.purchase_order_id = req_po)
    (hq : item.qty_to_receive = 0) :
    commit_item db req_po pon g now item = .ok (db, []) := by
  simp [commit_item, get_po_item_context, hline, hpo, hbel, hq, Bind.bind, Except.instMonad, Except.bind, Pure.pure, Except.pure, Functor.map, Except.map]

/-- Characterization of a successfully processed positive-quantity commit
item: one new cohort row carrying the resolved SKU, the copied (null-coerced)
unit cost and the damaged/pending status; audit events appended; the line
updated through the token-guarded UPDATE. -/
theorem commit_item_pos (db : DB) (req_po : Nat) (pon : String) (g now : Nat)
    (item : ReceivingCommitItem) (line : PoLine) (hdr : PurchaseOrder)
    (hline : db.po_items.find? (fun l => l.purchase_order_item_id == item.purchase_order_item_id) = some line)
    (hpo : db.purchase_orders.find? (fun po => po.purchase_order_id == req_po) = some hdr)
    (hbel : line.purchase_order_id = req_po)
    (hq : 0 < item.qty_to_receive)
    (hsku : seller_sku_exists db (pyStrOr item.sku (build_sku_simple pon item.purchase_order_item_id)) = false)
    (hcount : db.po_items.countP
      (fun l => l.purchase_order_item_id == item.purchase_order_item_id &&
                l.updated_at == item.updated_at) = 1) :
    ∃ (ns : String) (evs : List ReceivingEvent),
      commit_item db req_po pon g now item =
        .ok ({ db with
                 inventory_items := db.inventory_items ++
                   [{ inventory_item_id := db.next_inventory_item_id
                      purchase_order_item_id := item.purchase_order_item_id
                      variant_id := line.variant_id
                      seller_sku := pyStrOr item.sku (build_sku_simple pon item.purchase_order_item_id)
                      quantity := item.qty_to_receive
                      allocated_unit_cost := line.allocated_unit_cost.getD 0
                      condition_grade_id := g
                      status := if item.damaged then "Damaged" else "Pending"
                      updated_at := now }]
                 receiving_events := db.receiving_events ++ evs
                 po_items := db.po_items.map
                   (updPoiRow item.purchase_order_item_id item.qty_to_receive ns
                     item.updated_at now)
                 next_inventory_item_id := db.next_inventory_item_id + 1 },
             [db.next_inventory_item_id]) := by
  have hid : line.purchase_order_item_id = item.purchase_order_item_id := by
    simpa using List.find?_some hline
  have hq0 : ¬(item.qty_to_receive = 0) := by omega
  refine ⟨if (item.short && decide (line.quantity_received + item.qty_to_receive < line.quantity_expected)) = true
            then "short"
          else if line.quantity_received + item.qty_to_receive ≥ line.quantity_expected then "received"
          else if line.quantity_received + item.qty_to_receive > 0 then "partial"
          else pyStrOr (some line.receive_status) "pending",
         [⟨req_po, item.purchase_order_item_id, line.variant_id, "receive", item.qty_to_receive, none⟩] ++
           (if item.damaged then [⟨req_po, item.purchase_order_item_id, line.variant_id, "damage", item.qty_to_receive, none⟩] else []) ++
           (if max 0 (item.qty_to_receive - max 0 (line.quantity_expected - line.quantity_received)) > 0
              then [⟨req_po, item.purchase_order_item_id, line.variant_id, "overage",
                     max 0 (item.qty_to_receive - max 0 (line.quantity_expected - line.quantity_received)), none⟩] else []) ++
           (if (item.short && decide (line.quantity_received + item.qty_to_receive < line.quantity_expected)) = true
              then [⟨req_po, item.purchase_order_item_id, line.variant_id, "short",
                     max 0 (line.quantity_expected - (line.quantity_received + item.qty_to_receive)), none⟩] else []),
         ?_⟩
  have hqneg : ¬(item.qty_to_receive < 0) := by omega
  by_cases hC : (item.short && decide (line.quantity_received + item.qty_to_receive < line.quantity_expected)) = true
  · have hlt : line.quantity_received + item.qty_to_receive < line.quantity_expected :=
      of_decide_eq_true (Bool.and_eq_true_iff.mp hC).2
    have hshortq : (0 : Int) < max 0 (line.quantity_expected - (line.quantity_received + item.qty_to_receive)) := by
      omega
    by_cases hA : item.damaged = true <;>
    by_cases hB : (0 : Int) < max 0 (item.qty_to_receive - max 0 (line.quantity_expected - line.quantity_received)) <;>
    simp [commit_item, get_po_item_context, update_poi_receive, insert_inventory_item,
          insert_event, hline, hpo, hbel, hq0, hqneg, hid, hsku, hcount, hC, hshortq, hA, hB,
          Bind.bind, Except.instMonad, Except.bind, Pure.pure, Except.pure,
          Functor.map, Except.map]
  · by_cases hA : item.damaged = true <;>
    by_cases hB : (0 : Int) < max 0 (item.qty_to_receive - max 0 (line.quantity_expected - line.quantity_received)) <;>
    by_cases hE : line.quantity_received + item.qty_to_receive ≥ line.quantity_expected <;>
    by_cases hF : line.quantity_received + item.qty_to_receive > 0 <;>
    simp [commit_item, get_po_item_context, update_poi_receive, insert_inventory_item,
          insert_event, hline, hpo, hbel, hq0, hqneg, hid, hsku, hcount, hC, hA, hB, hE, hF,
          Bind.bind, Except.instMonad, Except.bind, Pure.pure, Except.pure,
          Functor.map, Except.map]

/-- A positive-quantity commit item whose concurrency token no longer
matches the stored updated_at of its (unique) line makes the whole item
processing fail with the 409 optimistic-concurrency error. -/
theorem commit_item_stale (db : DB) (req_po : Nat) (pon : String) (g now : Nat)
    (item : ReceivingCommitItem) (line : PoLine) (hdr : PurchaseOrder)
    (hline : db.po_items.find? (fun l => l.purchase_order_item_id == item.purchase_order_item_id) = some line)
    (hpo : db.purchase_orders.find? (fun po => po.purchase_order_id == req_po) = some hdr)
    (hbel : line.purchase_order_id = req_po)
    (hq : 0 < item.qty_to_receive)
    (hsku : seller_sku_exists db (pyStrOr item.sku (build_sku_simple pon item.purchase_order_item_id)) = false)
    (hcount : db.po_items.countP
      (fun l => l.purchase_order_item_id == item.purchase_order_item_id &&
                l.updated_at == item.updated_at) ≠ 1) :
    commit_item db req_po pon g now item =
      .error ⟨"PO line changed by someone else; refresh and retry", 409⟩ := by
  have hid : line.purchase_order_item_id = item.purchase_order_item_id := by
    simpa using List.find?_some hline
  have hq0 : ¬(item.qty_to_receive = 0) := by omega
  have hqneg : ¬(item.qty_to_receive < 0) := by omega
  have hb : (db.po_items.countP
      (fun l => l.purchase_order_item_id == item.purchase_order_item_id &&
                l.updated_at == item.updated_at) == 1) = false :=
    beq_eq_false_iff_ne.mpr hcount
  by_cases hC : (item.short && decide (line.quantity_received + item.qty_to_receive < line.quantity_expected)) = true
  · have hlt : line.quantity_received + item.qty_to_receive < line.quantity_expected :=
      of_decide_eq_true (Bool.and_eq_true_iff.mp hC).2
    have hshortq : (0 : Int) < max 0 (line.quantity_expected - (line.quantity_received + item.qty_to_receive)) := by
      omega
    by_cases hA : item.damaged = true <;>
    by_cases hB : (0 : Int) < max 0 (item.qty_to_receive - max 0 (line.quantity_expected - line.quantity_received)) <;>
    simp [commit_item, get_po_item_context, update_poi_receive, insert_inventory_item,
          insert_event, hline, hpo, hbel, hq0, hqneg, hid, hsku, hb, hC, hshortq, hA, hB,
          Bind.bind, Except.instMonad, Except.bind, Pure.pure, Except.pure,
          Functor.map, Except.map]
  · by_cases hA : item.damaged = true <;>
    by_cases hB : (0 : Int) < max 0 (item.qty_to_receive - max 0 (line.quantity_expected - line.quantity_received)) <;>
    by_cases hE : line.quantity_received + item.qty_to_receive ≥ line.quantity_expected <;>
    by_cases hF : line.quantity_received + item.qty_to_receive > 0 <;>
    simp [commit_item, get_po_item_context, update_poi_receive, insert_inventory_item,
          insert_event, hline, hpo, hbel, hq0, hqneg, hid, hsku, hb, hC, hA, hB, hE, hF,
          Bind.bind, Except.instMonad, Except.bind, Pure.pure, Except.pure,
          Functor.map, Except.map]

/-- A positive-quantity commit item whose resolved seller_sku already exists
in inventory fails with the 409 duplicate-SKU error. -/
theorem commit_item_sku_conflict (db : DB) (req_po : Nat) (pon : String) (g now : Nat)
    (item : ReceivingCommitItem) (line : PoLine) (hdr : PurchaseOrder)
    (hline : db.po_items.find? (fun l => l.purchase_order_item_id == item.purchase_order_item_id) = some line)
    (hpo : db.purchase_orders.find? (fun po => po.purchase_order_id == req_po) = some hdr)
    (hbel : line.purchase_order_id = req_po)
    (hq : 0 < item.qty_to_receive)
    (hsku : seller_sku_exists db (pyStrOr item.sku (build_sku_simple pon item.purchase_order_item_id)) = true) :
    commit_item db req_po pon g now item =
      .error ⟨"seller_sku " ++
        pyStrOr item.sku (build_sku_simple pon item.purchase_order_item_id) ++
        " already exists", 409⟩ := by
  have hid : line.purchase_order_item_id = item.purchase_order_item_id := by
    simpa using List.find?_some hline
  have hq0 : ¬(item.qty_to_receive = 0) := by omega
  have hqneg : ¬(item.qty_to_receive < 0) := by omega
  simp [commit_item, get_po_item_context, hline, hpo, hbel, hq0, hqneg, hid, hsku,
        Bind.bind, Except.instMonad, Except.bind, Pure.pure, Except.pure,
        Functor.map, Except.map]

/-- Processing an empty item list leaves the state untouched. -/
theorem commit_items_nil (req_po : Nat) (pon : String) (g now : Nat) (db : DB) :
    commit_items req_po pon g now db [] = .ok (db, []) := rfl

/-- A singleton batch succeeds exactly as its single item does. -/
theorem commit_items_single_ok (req_po : Nat) (pon : String) (g now : Nat) (db db1 : DB)
    (item : ReceivingCommitItem) (ids : List Nat)
    (h : commit_item db req_po pon g now item = .ok (db1, ids)) :
    commit_items req_po pon g now db [item] = .ok (db1, ids) := by
  simp [commit_items, h, Bind.bind, Except.instMonad, Except.bind, Pure.pure, Except.pure]

/-- A singleton batch fails exactly as its single item does. -/
theorem commit_items_single_err (req_po : Nat) (pon : String) (g now : Nat) (db : DB)
    (item : ReceivingCommitItem) (e : AppError)
    (h : commit_item db req_po pon g now item = .error e) :
    commit_items req_po pon g now db [item] = .error e := by
  simp [commit_items, h, Bind.bind, Except.instMonad, Except.bind, Pure.pure, Except.pure]

/-- commit_receiving on a locked PO with the UNKNOWN grade present reduces to
the item loop followed by the status refresh (success direction). -/
theorem commit_receiving_ok (db db1 : DB) (req : ReceivingCommitRequest) (now : Nat)
    (hdr : PurchaseOrder) (cg : ConditionGrade) (ids : List Nat)
    (hpo : db.purchase_orders.find? (fun po => po.purchase_order_id == req.purchase_order_id) = some hdr)
    (hlk : hdr.is_locked = true)
    (hgr : db.condition_grades.find? (fun g => g.code == "UNKNOWN") = some cg)
    (h : commit_items req.purchase_order_id hdr.po_number cg.condition_grade_id now db req.items = .ok (db1, ids)) :
    commit_receiving db req now = .ok (refresh_po_status db1 req.purchase_order_id now, ids) := by
  simp [commit_receiving, get_po_header, get_unknown_condition_grade_id, hpo, hlk, hgr, h,
        Bind.bind, Except.instMonad, Except.bind, Pure.pure, Except.pure,
        Functor.map, Except.map]

/-- commit_receiving on a locked PO with the UNKNOWN grade present propagates
an item-loop failure unchanged (error direction). -/
theorem commit_receiving_err (db : DB) (req : ReceivingCommitRequest) (now : Nat)
    (hdr : PurchaseOrder) (cg : ConditionGrade) (e : AppError)
    (hpo : db.purchase_orders.find? (fun po => po.purchase_order_id == req.purchase_order_id) = some hdr)
    (hlk : hdr.is_locked = true)
    (hgr : db.condition_grades.find? (fun g => g.code == "UNKNOWN") = some cg)
    (h : commit_items req.purchase_order_id hdr.po_number cg.condition_grade_id now db req.items = .error e) :
    commit_receiving db req now = .error e := by
  simp [commit_receiving, get_po_header, get_unknown_condition_grade_id, hpo, hlk, hgr, h,
        Bind.bind, Except.instMonad, Except.bind, Pure.pure, Except.pure,
        Functor.map, Except.map]

/-- Frame of a successfully processed commit item: headers, grades and
inventory-event rows untouched; the line table is mapped by a
key/PO/expected-quantity-preserving row transformer. -/
theorem commit_item_ok_shape (db : DB) (req_po : Nat) (pon : String) (g now : Nat)
    (item : ReceivingCommitItem) (db1 : DB) (ids : List Nat)
    (h : commit_item db req_po pon g now item = .ok (db1, ids)) :
    db1.purchase_orders = db.purchase_orders ∧
    db1.condition_grades = db.condition_grades ∧
    db1.inventory_events = db.inventory_events ∧
    ∃ f : PoLine → PoLine,
      (∀ l, (f l).purchase_order_item_id = l.purchase_order_item_id ∧
            (f l).purchase_order_id = l.purchase_order_id ∧
            (f l).quantity_expected = l.quantity_expected) ∧
      db1.po_items = db.po_items.map f := by
  cases hline : db.po_items.find? (fun l => l.purchase_order_item_id == item.purchase_order_item_id) with
  | none =>
    simp [commit_item, get_po_item_context, hline,
          Bind.bind, Except.instMonad, Except.bind, Pure.pure, Except.pure,
          Functor.map, Except.map] at h
  | some line =>
    cases hpo2 : db.purchase_orders.find? (fun po => po.purchase_order_id == line.purchase_order_id) with
    | none =>
      simp [commit_item, get_po_item_context, hline, hpo2,
            Bind.bind, Except.instMonad, Except.bind, Pure.pure, Except.pure,
            Functor.map, Except.map] at h
    | some hdr =>
      by_cases hbel : line.purchase_order_id = req_po
      · have hpoR : db.purchase_orders.find? (fun po => po.purchase_order_id == req_po) = some hdr :=
          hbel ▸ hpo2
        by_cases hqneg : item.qty_to_receive < 0
        · simp [commit_item, get_po_item_context, hline, hpo2, hpoR, hbel, hqneg,
                Bind.bind, Except.instMonad, Except.bind, Pure.pure, Except.pure,
                Functor.map, Except.map] at h
        · by_cases hq0 : item.qty_to_receive = 0
          · rw [commit_item_zero db req_po pon g now item line hdr hline hpoR hbel hq0] at h
            injection h with h2
            obtain ⟨h3, h4⟩ := Prod.mk.inj h2
            subst h3
            exact ⟨rfl, rfl, rfl, id, (fun l => ⟨rfl, rfl, rfl⟩), (List.map_id _).symm⟩
          · by_cases hskuT : seller_sku_exists db (pyStrOr item.sku (build_sku_simple pon item.purchase_order_item_id)) = true
            · rw [commit_item_sku_conflict db req_po pon g now item line hdr hline hpoR hbel
                    (by omega) hskuT] at h
              exact Except.noConfusion h
            · have hskuF : seller_sku_exists db (pyStrOr item.sku (build_sku_simple pon item.purchase_order_item_id)) = false := by
                simpa using hskuT
              by_cases hm : db.po_items.countP
                  (fun l => l.purchase_order_item_id == item.purchase_order_item_id &&
                            l.updated_at == item.updated_at) = 1
              · obtain ⟨ns, evs, hok⟩ := commit_item_pos db req_po pon g now item line hdr
                  hline hpoR hbel (by omega) hskuF hm
                rw [hok] at h
                injection h with h2
                obtain ⟨h3, h4⟩ := Prod.mk.inj h2
                subst h3
                exact ⟨rfl, rfl, rfl, _,
                  (fun l => ⟨updPoiRow_key _ _ _ _ _ l, updPoiRow_po _ _ _ _ _ l,
                             updPoiRow_exp _ _ _ _ _ l⟩), rfl⟩
              · rw [commit_item_stale db req_po pon g now item line hdr hline hpoR hbel
                      (by omega) hskuF hm] at h
                exact Except.noConfusion h
      · simp [commit_item, get_po_item_context, hline, hpo2, hbel,
              Bind.bind, Except.instMonad, Except.bind, Pure.pure, Except.pure,
              Functor.map, Except.map] at h

/-- Frame of a whole successful item loop: headers and grades untouched, the
line table mapped by a key/PO/expected-quantity-preserving transformer. -/
theorem commit_items_ok_shape (req_po : Nat) (pon : String) (g now : Nat) :
    ∀ (items : List ReceivingCommitItem) (db db1 : DB) (ids : List Nat),
      commit_items req_po pon g now db items = .ok (db1, ids) →
      db1.purchase_orders = db.purchase_orders ∧
      db1.condition_grades = db.condition_grades ∧
      ∃ f : PoLine → PoLine,
        (∀ l, (f l).purchase_order_item_id = l.purchase_order_item_id ∧
              (f l).purchase_order_id = l.purchase_order_id ∧
              (f l).quantity_expected = l.quantity_expected) ∧
        db1.po_items = db.po_items.map f := by
  intro items
  induction items with
  | nil =>
    intro db db1 ids h
    simp [commit_items, Pure.pure, Except.pure] at h
    obtain ⟨h1, _⟩ := h
    subst h1
    exact ⟨rfl, rfl, id, (fun l => ⟨rfl, rfl, rfl⟩), (List.map_id _).symm⟩
  | cons item rest ih =>
    intro db db1 ids h
    cases hi : commit_item db req_po pon g now item with
    | error e =>
      rw [commit_items] at h
      simp [hi, Bind.bind, Except.bind] at h
    | ok r =>
      obtain ⟨dbm, ids1⟩ := r
      rw [commit_items] at h
      simp only [hi, Bind.bind, Except.bind] at h
      cases hr : commit_items req_po pon g now dbm rest with
      | error e => simp [hr, Bind.bind, Except.bind] at h
      | ok r2 =>
        obtain ⟨db2, ids2⟩ := r2
        simp only [hr, Pure.pure, Except.pure] at h
        injection h with h2
        obtain ⟨h3, _⟩ := Prod.mk.inj h2
        subst h3
        obtain ⟨ha1, ha2, ha3, f1, hf1, hmap1⟩ :=
          commit_item_ok_shape db req_po pon g now item dbm ids1 hi
        obtain ⟨hb1, hb2, f2, hf2, hmap2⟩ := ih dbm db2 ids2 hr
        refine ⟨hb1.trans ha1, hb2.trans ha2, f2 ∘ f1, ?_, ?_⟩
        · intro l
          obtain ⟨k1, p1, e1⟩ := hf1 l
          obtain ⟨k2, p2, e2⟩ := hf2 (f1 l)
          exact ⟨k2.trans k1, p2.trans p1, e2.trans e1⟩
        · rw [hmap2, hmap1, List.map_map]

/-- After a status refresh the PO row carries the aggregate status derived
from its line totals (previous status kept when nothing is expected). -/
theorem refresh_po_status_found (db : DB) (po_id now : Nat) (hdr : PurchaseOrder)
    (hpo : db.purchase_orders.find? (fun po => po.purchase_order_id == po_id) = some hdr) :
    ∃ hdr', (refresh_po_status db po_id now).purchase_orders.find?
        (fun po => po.purchase_order_id == po_id) = some hdr' ∧
      hdr'.status = po_status_aggregate db.po_items po_id hdr.status := by
  have hid : hdr.purchase_order_id = po_id := by simpa using List.find?_some hpo
  by_cases hte : ((db.po_items.filter (fun l => l.purchase_order_id == po_id)).map
      (fun l => l.quantity_expected)).sum = 0
  · refine ⟨hdr, ?_, ?_⟩
    · simp only [refresh_po_status, get_poi_totals]
      simp only [hte]
      simpa using hpo
    · simp [po_status_aggregate, hte]
  · have hteb : (((db.po_items.filter (fun l => l.purchase_order_id == po_id)).map
        (fun l => l.quantity_expected)).sum == 0) = false :=
      beq_eq_false_iff_ne.mpr hte
    have hfind := find_map_pred_stable (fun po => po.purchase_order_id == po_id)
      (fun po => if po.purchase_order_id == po_id then
          { po with
              status :=
                if ((db.po_items.filter (fun l => l.purchase_order_id == po_id)).map
                      (fun l => l.quantity_received)).sum ≥
                    ((db.po_items.filter (fun l => l.purchase_order_id == po_id)).map
                      (fun l => l.quantity_expected)).sum then
                  if (db.po_items.filter (fun l => l.purchase_order_id == po_id)).countP
                        (fun l => l.receive_status == "short") > 0 then
                    "closed_with_exceptions"
                  else "received"
                else if ((db.po_items.filter (fun l => l.purchase_order_id == po_id)).map
                      (fun l => l.quantity_received)).sum > 0 then "partially_received"
                else "open",
              updated_at := now }
        else po)
      (by intro a
          by_cases hc : (a.purchase_order_id == po_id) = true <;> simp [hc]) db.purchase_orders
    refine ⟨{ hdr with
                status := po_status_aggregate db.po_items po_id hdr.status,
                updated_at := now }, ?_, rfl⟩
    simp only [refresh_po_status, get_poi_totals, hteb, Bool.false_eq_true, if_false]
    rw [hfind, hpo]
    simp [hid, po_status_aggregate, hte]

/-- C5: locking a PO that has a manual-cost line with a NULL allocated unit
cost fails with the 400 ValidationError and leaves the state (hence
is_locked = false) untouched, for every possible allocation procedure (the
allocation step is never run); locking an already-locked PO fails with the
409 Conflict. -/
theorem C5_lock_preconditions :
    (∀ (db : DB) (po_id now : Nat) (alloc : DB → DB) (hdr : PurchaseOrder),
       db.purchase_orders.find? (fun po => po.purchase_order_id == po_id) = some hdr →
       hdr.is_locked = true →
       runTxn0 db (lock_po db po_id alloc now) =
         (db, .error ⟨"PO is already locked", 409⟩)) ∧
    (∀ (db : DB) (po_id now : Nat) (alloc : DB → DB) (hdr : PurchaseOrder),
       db.purchase_orders.find? (fun po => po.purchase_order_id == po_id) = some hdr →
       hdr.is_locked = false →
       any_manual_line_missing_cost db po_id = true →
       runTxn0 db (lock_po db po_id alloc now) =
         (db, .error ⟨"Manual lines must have allocated_unit_cost before locking", 400⟩)) := by
  constructor
  · intro db po_id now alloc hdr hpo hlk
    simp [runTxn0, lock_po, get_po_is_locked, hpo, hlk,
          Bind.bind, Except.instMonad, Except.bind, Pure.pure, Except.pure,
          Functor.map, Except.map]
  · intro db po_id now alloc hdr hpo hlk hmiss
    simp [runTxn0, lock_po, get_po_is_locked, hpo, hlk, hmiss,
          Bind.bind, Except.instMonad, Except.bind, Pure.pure, Except.pure,
          Functor.map, Except.map]

/-- Witness for C5 on the concrete fixture: locking PO 1 (manual line with
NULL cost) fails 400 leaving the state unchanged, and locking the locked
PO 2 fails 409. -/
theorem C5_lock_preconditions_witness :
    runTxn0 dbLockC5 (lock_po dbLockC5 1 id 6) =
      (dbLockC5, .error ⟨"Manual lines must have allocated_unit_cost before locking", 400⟩) ∧
    runTxn0 dbLockC5 (lock_po dbLockC5 2 id 6) =
      (dbLockC5, .error ⟨"PO is already locked", 409⟩) :=
  ⟨C5_lock_preconditions.2 dbLockC5 1 6 id ⟨1, "EB001", 1, "open", false, 0, 0, 0, 0, 0, 5⟩
     (by rfl) (by rfl) (by rfl),
   C5_lock_preconditions.1 dbLockC5 2 6 id ⟨2, "EB002", 1, "open", true, 0, 0, 0, 0, 0, 5⟩
     (by rfl) (by rfl)⟩

/-- C4: PO-number allocation takes the maximum numeric suffix of the
source's existing po_numbers plus one, formatted as {code}{3-digit-padded
seq}; create retries allocation exactly once on a uniqueness collision
(recomputing the sequence against the interfered state) and surfaces the
409 Conflict only when the retry collides too. -/
theorem C4_po_number_allocation :
    ∀ (db : DB) (p : CreatePoPayload) (now : Nat) (f1 f2 : DB → DB) (code : String),
      ¬(p.subtotal < 0) → ¬(p.tax < 0) → ¬(p.shipping < 0) → ¬(p.fees < 0) → ¬(p.discounts < 0) →
      get_source_code db p.source_id = .ok code →
      (((f1 db).purchase_orders.any (fun po => po.source_id == p.source_id &&
           po.po_number == code ++ pyPadZeros 3 (next_seq_for_source db p.source_id code)) = false →
        ∃ db' row, create_po db p now f1 f2 = .ok (db', row) ∧
          row.po_number = code ++ pyPadZeros 3 (next_seq_for_source db p.source_id code) ∧
          row.status = "open" ∧ row.is_locked = false) ∧
       ((f1 db).purchase_orders.any (fun po => po.source_id == p.source_id &&
           po.po_number == code ++ pyPadZeros 3 (next_seq_for_source db p.source_id code)) = true →
        (f2 (f1 db)).purchase_orders.any (fun po => po.source_id == p.source_id &&
           po.po_number == code ++ pyPadZeros 3 (next_seq_for_source (f1 db) p.source_id code)) = false →
        ∃ db' row, create_po db p now f1 f2 = .ok (db', row) ∧
          row.po_number = code ++ pyPadZeros 3 (next_seq_for_source (f1 db) p.source_id code) ∧
          row.status = "open" ∧ row.is_locked = false) ∧
       ((f1 db).purchase_orders.any (fun po => po.source_id == p.source_id &&
           po.po_number == code ++ pyPadZeros 3 (next_seq_for_source db p.source_id code)) = true →
        (f2 (f1 db)).purchase_orders.any (fun po => po.source_id == p.source_id &&
           po.po_number == code ++ pyPadZeros 3 (next_seq_for_source (f1 db) p.source_id code)) = true →
        create_po db p now f1 f2 =
          .error ⟨"Could not allocate a unique PO number, please retry", 409⟩)) := by
  intro db p now f1 f2 code h1 h2 h3 h4 h5 hsrc
  refine ⟨?_, ?_, ?_⟩
  · intro hfree
    refine ⟨{ f1 db with
              purchase_orders := (f1 db).purchase_orders ++
                [{ purchase_order_id := (f1 db).next_purchase_order_id
                   po_number := code ++ pyPadZeros 3 (next_seq_for_source db p.source_id code)
                   source_id := p.source_id
                   status := "open"
                   is_locked := false
                   subtotal := p.subtotal, tax := p.tax, shipping := p.shipping
                   fees := p.fees, discounts := p.discounts
                   updated_at := now }]
              next_purchase_order_id := (f1 db).next_purchase_order_id + 1 },
            { purchase_order_id := (f1 db).next_purchase_order_id,
              po_number := code ++ pyPadZeros 3 (next_seq_for_source db p.source_id code),
              source_id := p.source_id, status := "open", is_locked := false,
              subtotal := p.subtotal, tax := p.tax, shipping := p.shipping,
              fees := p.fees, discounts := p.discounts,
              updated_at := now }, ?_, rfl, rfl, rfl⟩
    simp [create_po, insert_po_header, h1, h2, h3, h4, h5, hsrc, hfree,
          Bind.bind, Except.instMonad, Except.bind, Pure.pure, Except.pure,
          Functor.map, Except.map]
  · intro htaken1 hfree2
    refine ⟨{ f2 (f1 db) with
              purchase_orders := (f2 (f1 db)).purchase_orders ++
                [{ purchase_order_id := (f2 (f1 db)).next_purchase_order_id
                   po_number := code ++ pyPadZeros 3 (next_seq_for_source (f1 db) p.source_id code)
                   source_id := p.source_id
                   status := "open"
                   is_locked := false
                   subtotal := p.subtotal, tax := p.tax, shipping := p.shipping
                   fees := p.fees, discounts := p.discounts
                   updated_at := now }]
              next_purchase_order_id := (f2 (f1 db)).next_purchase_order_id + 1 },
            { purchase_order_id := (f2 (f1 db)).next_purchase_order_id,
              po_number := code ++ pyPadZeros 3 (next_seq_for_source (f1 db) p.source_id code),
              source_id := p.source_id, status := "open", is_locked := false,
              subtotal := p.subtotal, tax := p.tax, shipping := p.shipping,
              fees := p.fees, discounts := p.discounts,
              updated_at := now }, ?_, rfl, rfl, rfl⟩
    simp [create_po, insert_po_header, h1, h2, h3, h4, h5, hsrc, htaken1, hfree2,
          Bind.bind, Except.instMonad, Except.bind, Pure.pure, Except.pure,
          Functor.map, Except.map]
  · intro htaken1 htaken2
    simp [create_po, insert_po_header, h1, h2, h3, h4, h5, hsrc, htaken1, htaken2,
          Bind.bind, Except.instMonad, Except.bind, Pure.pure, Except.pure,
          Functor.map, Except.map, throw, throwThe, MonadExceptOf.throw]

/-- Witness for C4 on the concrete fixture: source EB with existing EB001
and EB002 yields EB003 on an uncontended create. -/
theorem C4_po_number_allocation_witness :
    ∃ db' row, create_po dbSeqC4 payloadC4 9 id id = .ok (db', row) ∧
      row.po_number = "EB003" ∧ row.status = "open" ∧ row.is_locked = false := by
  obtain ⟨db', row, h, hn, hs, hl⟩ :=
    (C4_po_number_allocation dbSeqC4 payloadC4 9 id id "EB"
      (by decide) (by decide) (by decide) (by decide) (by decide) (by rfl)).1 (by decide)
  refine ⟨db', row, h, ?_, hs, hl⟩
  rw [hn]
  decide

/-- C7: an inventory adjustment computes quantity_after as the current
quantity plus the delta; a negative result fails with the 400 BadRequest
leaving the item unchanged; otherwise the new status is the explicit
set_status when given, else Archived when auto-archiving at zero applies,
else the prior status; exactly one InventoryEvent capturing before/after
quantity and status is appended atomically with the mutation. -/
theorem C7_adjust_characterization :
    ∀ (db : DB) (iid now : Nat) (req : AdjustInventoryRequest) (row : InventoryItem),
      db.inventory_items.find? (fun ii => ii.inventory_item_id == iid) = some row →
      db.inventory_items.countP (fun ii => ii.inventory_item_id == iid) = 1 →
      ALLOWED_REASONS.contains (pyStripLower req.reason) = true →
      (∀ s, req.set_status = some s → ALLOWED_STATUSES.contains s = true) →
      ((row.quantity + req.delta < 0 →
          runTxn0 db (adjust db iid req now) =
            (db, .error ⟨"Insufficient quantity for this adjustment", 400⟩)) ∧
       (0 ≤ row.quantity + req.delta →
          ∃ db', runTxn0 db (adjust db iid req now) = (db', .ok ()) ∧
            (∃ row', db'.inventory_items.find? (fun ii => ii.inventory_item_id == iid) = some row' ∧
               row'.quantity = row.quantity + req.delta ∧
               row'.status = (match req.set_status with
                 | some s => s
                 | none =>
                   if (req.auto_archive_when_zero.getD true) && (row.quantity + req.delta == 0)
                   then "Archived" else row.status)) ∧
            db'.inventory_events = db.inventory_events ++
              [{ inventory_item_id := iid
                 event_type := "adjust"
                 reason := pyStripLower req.reason
                 delta := req.delta
                 quantity_before := row.quantity
                 quantity_after := row.quantity + req.delta
                 from_status := row.status
                 to_status := (match req.set_status with
                   | some s => s
                   | none =>
                     if (req.auto_archive_when_zero.getD true) && (row.quantity + req.delta == 0)
                     then "Archived" else row.status)
                 notes := req.notes }])) := by
  intro db iid now req row hrow huniq hreason hstatus
  have hreason2 : pyStripLower req.reason ∈ ALLOWED_REASONS := by simpa using hreason
  constructor
  · intro hneg
    cases hs : req.set_status with
    | none =>
      simp [runTxn0, adjust, hreason2, hs, hrow, hneg, update_item_qty_status, huniq,
            Bind.bind, Except.instMonad, Except.bind, Pure.pure, Except.pure,
            Functor.map, Except.map]
    | some st =>
      have hst2 : st ∈ ALLOWED_STATUSES := by simpa using hstatus st hs
      simp [runTxn0, adjust, hreason2, hs, hst2, hrow, hneg, update_item_qty_status, huniq,
            Bind.bind, Except.instMonad, Except.bind, Pure.pure, Except.pure,
            Functor.map, Except.map]
  · intro hpos
    have hnneg : ¬(row.quantity + req.delta < 0) := by omega
    have hkey : row.inventory_item_id = iid := by simpa using List.find?_some hrow
    cases hs : req.set_status with
    | none =>
      have hfind := find_map_pred_stable (fun ii => ii.inventory_item_id == iid)
        (fun ii => if ii.inventory_item_id == iid then
            { ii with quantity := row.quantity + req.delta,
                      status :=
                        if (req.auto_archive_when_zero.getD true) && (row.quantity + req.delta == 0)
                        then "Archived" else row.status,
                      updated_at := now }
          else ii)
        (by intro a
            by_cases hc : (a.inventory_item_id == iid) = true <;> simp [hc]) db.inventory_items
      refine ⟨{ db with
                inventory_items := db.inventory_items.map (fun ii =>
                  if ii.inventory_item_id == iid then
                    { ii with quantity := row.quantity + req.delta,
                              status :=
                                if (req.auto_archive_when_zero.getD true) && (row.quantity + req.delta == 0)
                                then "Archived" else row.status,
                              updated_at := now }
                  else ii)
                inventory_events := db.inventory_events ++
                  [{ inventory_item_id := iid
                     event_type := "adjust"
                     reason := pyStripLower req.reason
                     delta := req.delta
                     quantity_before := row.quantity
                     quantity_after := row.quantity + req.delta
                     from_status := row.status
                     to_status :=
                       if (req.auto_archive_when_zero.getD true) && (row.quantity + req.delta == 0)
                       then "Archived" else row.status
                     notes := req.notes }] },
              ?_,
              ⟨{ row with quantity := row.quantity + req.delta,
                          status :=
                            if (req.auto_archive_when_zero.getD true) && (row.quantity + req.delta == 0)
                            then "Archived" else row.status,
                          updated_at := now }, ?_, rfl, rfl⟩, rfl⟩
      · simp [runTxn0, adjust, insert_inventory_event, hreason2, hs, hrow, hnneg,
              update_item_qty_status, huniq,
              Bind.bind, Except.instMonad, Except.bind, Pure.pure, Except.pure,
              Functor.map, Except.map]
      · rw [hfind, hrow]
        simp [hkey]
    | some st =>
      have hst2 : st ∈ ALLOWED_STATUSES := by simpa using hstatus st hs
      have hfind := find_map_pred_stable (fun ii => ii.inventory_item_id == iid)
        (fun ii => if ii.inventory_item_id == iid then
            { ii with quantity := row.quantity + req.delta,
                      status := st,
                      updated_at := now }
          else ii)
        (by intro a
            by_cases hc : (a.inventory_item_id == iid) = true <;> simp [hc]) db.inventory_items
      refine ⟨{ db with
                inventory_items := db.inventory_items.map (fun ii =>
                  if ii.inventory_item_id == iid then
                    { ii with quantity := row.quantity + req.delta,
                              status := st,
                              updated_at := now }
                  else ii)
                inventory_events := db.inventory_events ++
                  [{ inventory_item_id := iid
                     event_type := "adjust"
                     reason := pyStripLower req.reason
                     delta := req.delta
                     quantity_before := row.quantity
                     quantity_after := row.quantity + req.delta
                     from_status := row.status
                     to_status := st
                     notes := req.notes }] },
              ?_,
              ⟨{ row with quantity := row.quantity + req.delta,
                          status := st,
                          updated_at := now }, ?_, rfl, rfl⟩, rfl⟩
      · simp [runTxn0, adjust, insert_inventory_event, hreason2, hs, hst2, hrow, hnneg,
              update_item_qty_status, huniq,
              Bind.bind, Except.instMonad, Except.bind, Pure.pure, Except.pure,
              Functor.map, Except.map]
      · rw [hfind, hrow]
        simp [hkey]

/-- Witness for C7 on the concrete fixture: adjusting the quantity-3 cohort
by -3 with reason loss succeeds, quantity becomes 0, the status
auto-archives, and the audit event is appended; adjusting by -4 fails 400
leaving the state unchanged. -/
theorem C7_adjust_characterization_witness :
    (∃ db', runTxn0 dbAdjC7 (adjust dbAdjC7 1 ⟨-3, "loss", none, none, none⟩ 12) =
        (db', .ok ()) ∧
      (∃ row', db'.inventory_items.find? (fun ii => ii.inventory_item_id == 1) = some row' ∧
        row'.quantity = 0 ∧ row'.status = "Archived")) ∧
    runTxn0 dbAdjC7 (adjust dbAdjC7 1 ⟨-4, "loss", none, none, none⟩ 12) =
      (dbAdjC7, .error ⟨"Insufficient quantity for this adjustment", 400⟩) := by
  constructor
  · obtain ⟨db', h1, ⟨row', h2, h3, h4⟩, _⟩ :=
      (C7_adjust_characterization dbAdjC7 1 12 ⟨-3, "loss", none, none, none⟩
        ⟨1, 101, 11, "SKU1", 3, 2, 7, "Pending", 4⟩ (by rfl) (by rfl) (by decide)
        (by intro s hs; cases hs)).2 (by decide)
    refine ⟨db', h1, row', h2, by rw [h3]; decide, by rw [h4]; decide⟩
  · exact
      (C7_adjust_characterization dbAdjC7 1 12 ⟨-4, "loss", none, none, none⟩
        ⟨1, 101, 11, "SKU1", 3, 2, 7, "Pending", 4⟩ (by rfl) (by rfl) (by decide)
        (by intro s hs; cases hs)).1 (by decide)

/-- updPoiRow on the row whose key and token both match. -/
theorem updPoiRow_hit (poi : Nat) (q : Int) (ns : String) (tok now : Nat) (l : PoLine)
    (hk : l.purchase_order_item_id = poi) (ht : l.updated_at = tok) :
    updPoiRow poi q ns tok now l =
      { l with quantity_received := l.quantity_received + q,
               receive_status := ns, updated_at := now } := by
  simp [updPoiRow, hk, ht]

/-- A single-item commit on a locked PO with matching token succeeds and the
final state is the refreshed version of: one appended cohort, appended audit
events, and the token-guarded line update. -/
theorem commit_receiving_single_pos (db : DB) (po now : Nat) (item : ReceivingCommitItem)
    (line : PoLine) (hdr : PurchaseOrder) (cg : ConditionGrade)
    (hpo : db.purchase_orders.find? (fun q => q.purchase_order_id == po) = some hdr)
    (hlk : hdr.is_locked = true)
    (hgr : db.condition_grades.find? (fun g => g.code == "UNKNOWN") = some cg)
    (hline : db.po_items.find? (fun l => l.purchase_order_item_id == item.purchase_order_item_id) = some line)
    (hbel : line.purchase_order_id = po)
    (hq : 0 < item.qty_to_receive)
    (hsku : seller_sku_exists db
      (pyStrOr item.sku (build_sku_simple hdr.po_number item.purchase_order_item_id)) = false)
    (hcount : db.po_items.countP
      (fun l => l.purchase_order_item_id == item.purchase_order_item_id &&
                l.updated_at == item.updated_at) = 1) :
    ∃ (ns : String) (evs : List ReceivingEvent),
      commit_receiving db ⟨po, [item]⟩ now =
        .ok (refresh_po_status
              { db with
                  inventory_items := db.inventory_items ++
                    [{ inventory_item_id := db.next_inventory_item_id
                       purchase_order_item_id := item.purchase_order_item_id
                       variant_id := line.variant_id
                       seller_sku := pyStrOr item.sku
                         (build_sku_simple hdr.po_number item.purchase_order_item_id)
                       quantity := item.qty_to_receive
                       allocated_unit_cost := line.allocated_unit_cost.getD 0
                       condition_grade_id := cg.condition_grade_id
                       status := if item.damaged then "Damaged" else "Pending"
                       updated_at := now }]
                  receiving_events := db.receiving_events ++ evs
                  po_items := db.po_items.map
                    (updPoiRow item.purchase_order_item_id item.qty_to_receive ns
                      item.updated_at now)
                  next_inventory_item_id := db.next_inventory_item_id + 1 }
              po now,
            [db.next_inventory_item_id]) := by
  obtain ⟨ns, evs, h⟩ := commit_item_pos db po hdr.po_number cg.condition_grade_id now item
    line hdr hline hpo hbel hq hsku hcount
  exact ⟨ns, evs,
    commit_receiving_ok db _ ⟨po, [item]⟩ now hdr cg _ hpo hlk hgr
      (commit_items_single_ok po hdr.po_number cg.condition_grade_id now db _ item _ h)⟩

/-- Items with qty_to_receive = 0 whose lines exist and belong to the PO can
be dropped from the batch without changing the outcome of the item loop. -/
theorem commit_items_filter (req_po : Nat) (pon : String) (g now : Nat) :
    ∀ (items : List ReceivingCommitItem) (db : DB) (hdr : PurchaseOrder),
      db.purchase_orders.find? (fun q => q.purchase_order_id == req_po) = some hdr →
      (∀ it ∈ items, it.qty_to_receive = 0 →
        ∃ l, db.po_items.find?
            (fun x => x.purchase_order_item_id == it.purchase_order_item_id) = some l ∧
          l.purchase_order_id = req_po) →
      commit_items req_po pon g now db items =
        commit_items req_po pon g now db
          (items.filter (fun it => !(it.qty_to_receive == 0))) := by
  intro items
  induction items with
  | nil => intro db hdr _ _; rfl
  | cons it rest ih =>
    intro db hdr hpoR hz
    by_cases hq0 : it.qty_to_receive = 0
    · obtain ⟨l, hl, hbel⟩ := hz it (by simp) hq0
      have hzero := commit_item_zero db req_po pon g now it l hdr hl hpoR hbel hq0
      have hfilter : (it :: rest).filter (fun x => !(x.qty_to_receive == 0)) =
          rest.filter (fun x => !(x.qty_to_receive == 0)) := by
        simp [List.filter, hq0]
      rw [hfilter, commit_items, hzero,
          ← ih db hdr hpoR (fun x hx => hz x (List.mem_cons_of_mem it hx))]
      cases hr : commit_items req_po pon g now db rest with
      | error e => simp [hr, Bind.bind, Except.bind]
      | ok r =>
        obtain ⟨db2, ids2⟩ := r
        simp [hr, Bind.bind, Except.bind, Pure.pure, Except.pure]
    · have hb : (it.qty_to_receive == 0) = false := beq_eq_false_iff_ne.mpr hq0
      have hfilter : (it :: rest).filter (fun x => !(x.qty_to_receive == 0)) =
          it :: rest.filter (fun x => !(x.qty_to_receive == 0)) := by
        simp [List.filter, hb]
      rw [hfilter, commit_items, commit_items]
      cases hi : commit_item db req_po pon g now it with
      | error e => simp [hi, Bind.bind, Except.bind]
      | ok r =>
        obtain ⟨dbm, ids1⟩ := r
        simp only [hi, Bind.bind, Except.bind]
        obtain ⟨hpo1, _, _, f, hf, hmap⟩ :=
          commit_item_ok_shape db req_po pon g now it dbm ids1 hi
        have hpoR2 : dbm.purchase_orders.find? (fun q => q.purchase_order_id == req_po) = some hdr := by
          rw [hpo1]; exact hpoR
        have hz2 : ∀ x ∈ rest, x.qty_to_receive = 0 →
            ∃ l, dbm.po_items.find?
                (fun y => y.purchase_order_item_id == x.purchase_order_item_id) = some l ∧
              l.purchase_order_id = req_po := by
          intro x hx hx0
          obtain ⟨l, hl, hbl⟩ := hz x (List.mem_cons_of_mem it hx) hx0
          refine ⟨f l, ?_, ?_⟩
          · rw [hmap,
                find_map_pred_stable _ f (fun a => by simp [(hf a).1]) db.po_items, hl]
            rfl
          · rw [(hf l).2.1, hbl]
        rw [ih dbm hdr hpoR2 hz2]

/-- C2: a receiving commit whose item's echoed updated_at token no longer
matches the stored value of its line fails with the 409 concurrency
Conflict, and any failing commit is rolled back in full — the transaction
returns the pre-commit state, leaving the line and every sibling item's
effects unpersisted; a commit passing the currently stored updated_at
succeeds and advances the line's updated_at. -/
theorem C2_concurrency_token_enforcement :
    (∀ (db : DB) (req : ReceivingCommitRequest) (now : Nat) (e : AppError),
       commit_receiving db req now = .error e →
       runTxn db (commit_receiving db req now) = (db, .error e)) ∧
    (∀ (db : DB) (po now : Nat) (item : ReceivingCommitItem)
       (line : PoLine) (hdr : PurchaseOrder) (cg : ConditionGrade),
       db.purchase_orders.find? (fun q => q.purchase_order_id == po) = some hdr →
       hdr.is_locked = true →
       db.condition_grades.find? (fun g => g.code == "UNKNOWN") = some cg →
       db.po_items.find? (fun l => l.purchase_order_item_id == item.purchase_order_item_id) = some line →
       line.purchase_order_id = po →
       0 < item.qty_to_receive →
       seller_sku_exists db
         (pyStrOr item.sku (build_sku_simple hdr.po_number item.purchase_order_item_id)) = false →
       db.po_items.countP (fun l => l.purchase_order_item_id == item.purchase_order_item_id) = 1 →
       line.updated_at ≠ item.updated_at →
       runTxn db (commit_receiving db ⟨po, [item]⟩ now) =
         (db, .error ⟨"PO line changed by someone else; refresh and retry", 409⟩)) ∧
    (∀ (db : DB) (po now : Nat) (item : ReceivingCommitItem)
       (line : PoLine) (hdr : PurchaseOrder) (cg : ConditionGrade),
       db.purchase_orders.find? (fun q => q.purchase_order_id == po) = some hdr →
       hdr.is_locked = true →
       db.condition_grades.find? (fun g => g.code == "UNKNOWN") = some cg →
       db.po_items.find? (fun l => l.purchase_order_item_id == item.purchase_order_item_id) = some line →
       line.purchase_order_id = po →
       0 < item.qty_to_receive →
       seller_sku_exists db
         (pyStrOr item.sku (build_sku_simple hdr.po_number item.purchase_order_item_id)) = false →
       db.po_items.countP (fun l => l.purchase_order_item_id == item.purchase_order_item_id) = 1 →
       line.updated_at = item.updated_at →
       now ≠ line.updated_at →
       ∃ db' line', runTxn db (commit_receiving db ⟨po, [item]⟩ now) =
           (db', .ok [db.next_inventory_item_id]) ∧
         db'.po_items.find?
           (fun l => l.purchase_order_item_id == item.purchase_order_item_id) = some line' ∧
         line'.updated_at = now ∧ line'.updated_at ≠ item.updated_at) := by
  refine ⟨?_, ?_, ?_⟩
  · intro db req now e h
    simp [runTxn, h]
  · intro db po now item line hdr cg hpo hlk hgr hline hbel hq hsku huniq htok
    have hcount : db.po_items.countP
        (fun l => l.purchase_order_item_id == item.purchase_order_item_id &&
                  l.updated_at == item.updated_at) = 0 := by
      have h := countP_conj_unique
        (fun l : PoLine => l.purchase_order_item_id == item.purchase_order_item_id)
        (fun l : PoLine => l.updated_at == item.updated_at) db.po_items line huniq hline
      simpa [htok] using h
    have hstale := commit_item_stale db po hdr.po_number cg.condition_grade_id now item
      line hdr hline hpo hbel hq hsku (by omega)
    have herr := commit_receiving_err db ⟨po, [item]⟩ now hdr cg _ hpo hlk hgr
      (commit_items_single_err po hdr.po_number cg.condition_grade_id now db item _ hstale)
    simp [runTxn, herr]
  · intro db po now item line hdr cg hpo hlk hgr hline hbel hq hsku huniq htok hnow
    have hid : line.purchase_order_item_id = item.purchase_order_item_id := by
      simpa using List.find?_some hline
    have hcount : db.po_items.countP
        (fun l => l.purchase_order_item_id == item.purchase_order_item_id &&
                  l.updated_at == item.updated_at) = 1 := by
      have h := countP_conj_unique
        (fun l : PoLine => l.purchase_order_item_id == item.purchase_order_item_id)
        (fun l : PoLine => l.updated_at == item.updated_at) db.po_items line huniq hline
      simpa [htok] using h
    obtain ⟨ns, evs, hok⟩ := commit_receiving_single_pos db po now item line hdr cg
      hpo hlk hgr hline hbel hq hsku hcount
    refine ⟨refresh_po_status
              { db with
                  inventory_items := db.inventory_items ++
                    [{ inventory_item_id := db.next_inventory_item_id
                       purchase_order_item_id := item.purchase_order_item_id
                       variant_id := line.variant_id
                       seller_sku := pyStrOr item.sku
                         (build_sku_simple hdr.po_number item.purchase_order_item_id)
                       quantity := item.qty_to_receive
                       allocated_unit_cost := line.allocated_unit_cost.getD 0
                       condition_grade_id := cg.condition_grade_id
                       status := if item.damaged then "Damaged" else "Pending"
                       updated_at := now }]
                  receiving_events := db.receiving_events ++ evs
                  po_items := db.po_items.map
                    (updPoiRow item.purchase_order_item_id item.qty_to_receive ns
                      item.updated_at now)
                  next_inventory_item_id := db.next_inventory_item_id + 1 }
              po now,
            { line with
              quantity_received := line.quantity_received + item.qty_to_receive,
              receive_status := ns,
              updated_at := now }, ?_, ?_, rfl, ?_⟩
    · rw [hok]
      rfl
    · rw [(refresh_po_status_frame _ po now).1]
      show (db.po_items.map (updPoiRow item.purchase_order_item_id item.qty_to_receive ns
        item.updated_at now)).find?
          (fun l => l.purchase_order_item_id == item.purchase_order_item_id) = _
      rw [find_map_pred_stable _ _ (fun a => by simp [updPoiRow_key]) db.po_items, hline]
      simp [updPoiRow_hit item.purchase_order_item_id item.qty_to_receive ns
        item.updated_at now line hid htok]
    · show now ≠ item.updated_at
      rw [← htok]
      exact hnow

/-- Witness for C2 on the concrete fixture: committing 2 units with the
stored token 10 succeeds and moves the line's updated_at to 11; a commit
still passing a stale token fails 409 with the state fully rolled back. -/
theorem C2_concurrency_token_enforcement_witness :
    (∃ db' line',
       runTxn dbTokC2 (commit_receiving dbTokC2
         ⟨1, [⟨101, 2, some "NEW1", false, false, 10⟩]⟩ 11) = (db', .ok [1]) ∧
       db'.po_items.find? (fun l => l.purchase_order_item_id == 101) = some line' ∧
       line'.updated_at = 11 ∧ line'.updated_at ≠ 10) ∧
    runTxn dbTokC2 (commit_receiving dbTokC2
        ⟨1, [⟨101, 2, some "NEW1", false, false, 9⟩]⟩ 11) =
      (dbTokC2, .error ⟨"PO line changed by someone else; refresh and retry", 409⟩) := by
  constructor
  · exact C2_concurrency_token_enforcement.2.2 dbTokC2 1 11
      ⟨101, 2, some "NEW1", false, false, 10⟩
      ⟨101, 1, 11, 21, 5, 0, "pending", "manual", some 2, 10⟩
      ⟨1, "EB001", 1, "open", true, 0, 0, 0, 0, 0, 5⟩ ⟨7, "UNKNOWN"⟩
      (by rfl) (by rfl) (by rfl) (by rfl) (by rfl) (by decide) (by decide)
      (by decide) (by rfl) (by decide)
  · exact C2_concurrency_token_enforcement.2.1 dbTokC2 1 11
      ⟨101, 2, some "NEW1", false, false, 9⟩
      ⟨101, 1, 11, 21, 5, 0, "pending", "manual", some 2, 10⟩
      ⟨1, "EB001", 1, "open", true, 0, 0, 0, 0, 0, 5⟩ ⟨7, "UNKNOWN"⟩
      (by rfl) (by rfl) (by rfl) (by rfl) (by rfl) (by decide) (by decide)
      (by decide) (by decide)

/-- C3: a successfully committed item with positive quantity adds exactly
qty_to_receive to the line's quantity_received and creates exactly one new
InventoryItem cohort whose quantity equals qty_to_receive. -/
theorem C3_conservation :
    ∀ (db : DB) (po now : Nat) (item : ReceivingCommitItem)
      (line : PoLine) (hdr : PurchaseOrder) (cg : ConditionGrade),
      db.purchase_orders.find? (fun q => q.purchase_order_id == po) = some hdr →
      hdr.is_locked = true →
      db.condition_grades.find? (fun g => g.code == "UNKNOWN") = some cg →
      db.po_items.find? (fun l => l.purchase_order_item_id == item.purchase_order_item_id) = some line →
      line.purchase_order_id = po →
      0 < item.qty_to_receive →
      seller_sku_exists db
        (pyStrOr item.sku (build_sku_simple hdr.po_number item.purchase_order_item_id)) = false →
      db.po_items.countP (fun l => l.purchase_order_item_id == item.purchase_order_item_id) = 1 →
      line.updated_at = item.updated_at →
      ∃ db' ns, runTxn db (commit_receiving db ⟨po, [item]⟩ now) =
          (db', .ok [db.next_inventory_item_id]) ∧
        db'.inventory_items = db.inventory_items ++
          [{ inventory_item_id := db.next_inventory_item_id
             purchase_order_item_id := item.purchase_order_item_id
             variant_id := line.variant_id
             seller_sku := pyStrOr item.sku
               (build_sku_simple hdr.po_number item.purchase_order_item_id)
             quantity := item.qty_to_receive
             allocated_unit_cost := line.allocated_unit_cost.getD 0
             condition_grade_id := cg.condition_grade_id
             status := if item.damaged then "Damaged" else "Pending"
             updated_at := now }] ∧
        db'.po_items.find?
          (fun l => l.purchase_order_item_id == item.purchase_order_item_id) =
          some { line with
                 quantity_received := line.quantity_received + item.qty_to_receive,
                 receive_status := ns,
                 updated_at := now } := by
  intro db po now item line hdr cg hpo hlk hgr hline hbel hq hsku huniq htok
  have hid : line.purchase_order_item_id = item.purchase_order_item_id := by
    simpa using List.find?_some hline
  have hcount : db.po_items.countP
      (fun l => l.purchase_order_item_id == item.purchase_order_item_id &&
                l.updated_at == item.updated_at) = 1 := by
    have h := countP_conj_unique
      (fun l : PoLine => l.purchase_order_item_id == item.purchase_order_item_id)
      (fun l : PoLine => l.updated_at == item.updated_at) db.po_items line huniq hline
    simpa [htok] using h
  obtain ⟨ns, evs, hok⟩ := commit_receiving_single_pos db po now item line hdr cg
    hpo hlk hgr hline hbel hq hsku hcount
  refine ⟨refresh_po_status
            { db with
                inventory_items := db.inventory_items ++
                  [{ inventory_item_id := db.next_inventory_item_id
                     purchase_order_item_id := item.purchase_order_item_id
                     variant_id := line.variant_id
                     seller_sku := pyStrOr item.sku
                       (build_sku_simple hdr.po_number item.purchase_order_item_id)
                     quantity := item.qty_to_receive
                     allocated_unit_cost := line.allocated_unit_cost.getD 0
                     condition_grade_id := cg.condition_grade_id
                     status := if item.damaged then "Damaged" else "Pending"
                     updated_at := now }]
                receiving_events := db.receiving_events ++ evs
                po_items := db.po_items.map
                  (updPoiRow item.purchase_order_item_id item.qty_to_receive ns
                    item.updated_at now)
                next_inventory_item_id := db.next_inventory_item_id + 1 }
            po now, ns, ?_, ?_, ?_⟩
  · rw [hok]
    rfl
  · rw [(refresh_po_status_frame _ po now).2.1]
  · rw [(refresh_po_status_frame _ po now).1]
    show (db.po_items.map (updPoiRow item.purchase_order_item_id item.qty_to_receive ns
      item.updated_at now)).find?
        (fun l => l.purchase_order_item_id == item.purchase_order_item_id) = _
    rw [find_map_pred_stable _ _ (fun a => by simp [updPoiRow_key]) db.po_items, hline]
    simp [updPoiRow_hit item.purchase_order_item_id item.qty_to_receive ns
      item.updated_at now line hid htok]

/-- Witness for C3 on the concrete fixture: committing 3 units on a line
already at quantity_received 1 moves it to 4 and creates one cohort of
quantity 3. -/
theorem C3_conservation_witness :
    ∃ db' ns, runTxn dbConsC3 (commit_receiving dbConsC3
        ⟨1, [⟨101, 3, some "NEW3", false, false, 10⟩]⟩ 11) = (db', .ok [2]) ∧
      db'.inventory_items = dbConsC3.inventory_items ++
        [{ inventory_item_id := 2
           purchase_order_item_id := 101
           variant_id := 11
           seller_sku := "NEW3"
           quantity := 3
           allocated_unit_cost := 2
           condition_grade_id := 7
           status := "Pending"
           updated_at := 11 }] ∧
      db'.po_items.find? (fun l => l.purchase_order_item_id == 101) =
        some { purchase_order_item_id := 101, purchase_order_id := 1, variant_id := 11,
               catalog_product_id := 21, quantity_expected := 5, quantity_received := 4,
               receive_status := ns, cost_assignment_method := "manual",
               allocated_unit_cost := some 2, updated_at := 11 } := by
  obtain ⟨db', ns, h1, h2, h3⟩ := C3_conservation dbConsC3 1 11
    ⟨101, 3, some "NEW3", false, false, 10⟩
    ⟨101, 1, 11, 21, 5, 1, "partial", "manual", some 2, 10⟩
    ⟨1, "EB001", 1, "open", true, 0, 0, 0, 0, 0, 5⟩ ⟨7, "UNKNOWN"⟩
    (by rfl) (by rfl) (by rfl) (by rfl) (by rfl) (by decide) (by decide)
    (by decide) (by rfl)
  exact ⟨db', ns, h1, h2, h3⟩

/-- C8: a positive-quantity commit item whose resolved seller_sku (caller
supplied, else the po_number plus 4-digit-padded line id default) already
exists in inventory fails with the 409 Conflict and the transaction returns
the pre-commit state (nothing from the batch persists); otherwise the
created cohort carries exactly that resolved seller_sku. -/
theorem C8_sku_uniqueness :
    (∀ (db : DB) (po now : Nat) (item : ReceivingCommitItem)
       (line : PoLine) (hdr : PurchaseOrder) (cg : ConditionGrade),
       db.purchase_orders.find? (fun q => q.purchase_order_id == po) = some hdr →
       hdr.is_locked = true →
       db.condition_grades.find? (fun g => g.code == "UNKNOWN") = some cg →
       db.po_items.find? (fun l => l.purchase_order_item_id == item.purchase_order_item_id) = some line →
       line.purchase_order_id = po →
       0 < item.qty_to_receive →
       seller_sku_exists db
         (pyStrOr item.sku (build_sku_simple hdr.po_number item.purchase_order_item_id)) = true →
       runTxn db (commit_receiving db ⟨po, [item]⟩ now) =
         (db, .error ⟨"seller_sku " ++
           pyStrOr item.sku (build_sku_simple hdr.po_number item.purchase_order_item_id) ++
           " already exists", 409⟩)) ∧
    (∀ (db : DB) (po now : Nat) (item : ReceivingCommitItem)
       (line : PoLine) (hdr : PurchaseOrder) (cg : ConditionGrade),
       db.purchase_orders.find? (fun q => q.purchase_order_id == po) = some hdr →
       hdr.is_locked = true →
       db.condition_grades.find? (fun g => g.code == "UNKNOWN") = some cg →
       db.po_items.find? (fun l => l.purchase_order_item_id == item.purchase_order_item_id) = some line →
       line.purchase_order_id = po →
       0 < item.qty_to_receive →
       seller_sku_exists db
         (pyStrOr item.sku (build_sku_simple hdr.po_number item.purchase_order_item_id)) = false →
       db.po_items.countP (fun l => l.purchase_order_item_id == item.purchase_order_item_id) = 1 →
       line.updated_at = item.updated_at →
       ∃ db', runTxn db (commit_receiving db ⟨po, [item]⟩ now) =
           (db', .ok [db.next_inventory_item_id]) ∧
         ∃ cohort, db'.inventory_items = db.inventory_items ++ [cohort] ∧
           cohort.seller_sku =
             pyStrOr item.sku (build_sku_simple hdr.po_number item.purchase_order_item_id)) := by
  constructor
  · intro db po now item line hdr cg hpo hlk hgr hline hbel hq hskuT
    have hconf := commit_item_sku_conflict db po hdr.po_number cg.condition_grade_id now item
      line hdr hline hpo hbel hq hskuT
    have herr := commit_receiving_err db ⟨po, [item]⟩ now hdr cg _ hpo hlk hgr
      (commit_items_single_err po hdr.po_number cg.condition_grade_id now db item _ hconf)
    simp [runTxn, herr]
  · intro db po now item line hdr cg hpo hlk hgr hline hbel hq hsku huniq htok
    have hcount : db.po_items.countP
        (fun l => l.purchase_order_item_id == item.purchase_order_item_id &&
                  l.updated_at == item.updated_at) = 1 := by
      have h := countP_conj_unique
        (fun l : PoLine => l.purchase_order_item_id == item.purchase_order_item_id)
        (fun l : PoLine => l.updated_at == item.updated_at) db.po_items line huniq hline
      simpa [htok] using h
    obtain ⟨ns, evs, hok⟩ := commit_receiving_single_pos db po now item line hdr cg
      hpo hlk hgr hline hbel hq hsku hcount
    refine ⟨refresh_po_status
              { db with
                  inventory_items := db.inventory_items ++
                    [{ inventory_item_id := db.next_inventory_item_id
                       purchase_order_item_id := item.purchase_order_item_id
                       variant_id := line.variant_id
                       seller_sku := pyStrOr item.sku
                         (build_sku_simple hdr.po_number item.purchase_order_item_id)
                       quantity := item.qty_to_receive
                       allocated_unit_cost := line.allocated_unit_cost.getD 0
                       condition_grade_id := cg.condition_grade_id
                       status := if item.damaged then "Damaged" else "Pending"
                       updated_at := now }]
                  receiving_events := db.receiving_events ++ evs
                  po_items := db.po_items.map
                    (updPoiRow item.purchase_order_item_id item.qty_to_receive ns
                      item.updated_at now)
                  next_inventory_item_id := db.next_inventory_item_id + 1 }
              po now, ?_,
            ⟨{ inventory_item_id := db.next_inventory_item_id
               purchase_order_item_id := item.purchase_order_item_id
               variant_id := line.variant_id
               seller_sku := pyStrOr item.sku
                 (build_sku_simple hdr.po_number item.purchase_order_item_id)
               quantity := item.qty_to_receive
               allocated_unit_cost := line.allocated_unit_cost.getD 0
               condition_grade_id := cg.condition_grade_id
               status := if item.damaged then "Damaged" else "Pending"
               updated_at := now }, ?_, rfl⟩⟩
    · rw [hok]
      rfl
    · rw [(refresh_po_status_frame _ po now).2.1]

/-- Witness for C8 on the concrete fixture: the default SKU EB0010101 is
already taken, so a no-SKU commit fails 409 with full rollback; a commit
supplying a fresh SKU succeeds and the cohort carries it. -/
theorem C8_sku_uniqueness_witness :
    runTxn dbSkuC8 (commit_receiving dbSkuC8
        ⟨1, [⟨101, 2, none, false, false, 10⟩]⟩ 11) =
      (dbSkuC8, .error ⟨"seller_sku EB0010101 already exists", 409⟩) ∧
    (∃ db', runTxn dbSkuC8 (commit_receiving dbSkuC8
          ⟨1, [⟨101, 2, some "FRESH2", false, false, 10⟩]⟩ 11) = (db', .ok [2]) ∧
      ∃ cohort, db'.inventory_items = dbSkuC8.inventory_items ++ [cohort] ∧
        cohort.seller_sku = "FRESH2") := by
  constructor
  · exact C8_sku_uniqueness.1 dbSkuC8 1 11 ⟨101, 2, none, false, false, 10⟩
      ⟨101, 1, 11, 21, 5, 0, "pending", "manual", some 2, 10⟩
      ⟨1, "EB001", 1, "open", true, 0, 0, 0, 0, 0, 5⟩ ⟨7, "UNKNOWN"⟩
      (by rfl) (by rfl) (by rfl) (by rfl) (by rfl) (by decide) (by decide)
  · exact C8_sku_uniqueness.2 dbSkuC8 1 11 ⟨101, 2, some "FRESH2", false, false, 10⟩
      ⟨101, 1, 11, 21, 5, 0, "pending", "manual", some 2, 10⟩
      ⟨1, "EB001", 1, "open", true, 0, 0, 0, 0, 0, 5⟩ ⟨7, "UNKNOWN"⟩
      (by rfl) (by rfl) (by rfl) (by rfl) (by rfl) (by decide) (by decide)
      (by decide) (by rfl)

/-- C9 (implicit): an item with qty_to_receive = 0 is skipped before the
optimistic-concurrency check — the commit succeeds whatever updated_at
token the item carries, and the outcome does not depend on the token at
all. -/
theorem C9_zero_qty_skips_token_check :
    (∀ (db : DB) (po now : Nat) (item : ReceivingCommitItem)
       (line : PoLine) (hdr : PurchaseOrder) (cg : ConditionGrade),
       db.purchase_orders.find? (fun q => q.purchase_order_id == po) = some hdr →
       hdr.is_locked = true →
       db.condition_grades.find? (fun g => g.code == "UNKNOWN") = some cg →
       db.po_items.find? (fun l => l.purchase_order_item_id == item.purchase_order_item_id) = some line →
       line.purchase_order_id = po →
       item.qty_to_receive = 0 →
       runTxn db (commit_receiving db ⟨po, [item]⟩ now) =
         (refresh_po_status db po now, .ok [])) ∧
    (∀ (db : DB) (po now : Nat) (item : ReceivingCommitItem) (t t' : Nat),
       item.qty_to_receive = 0 →
       commit_receiving db ⟨po, [{ item with updated_at := t }]⟩ now =
         commit_receiving db ⟨po, [{ item with updated_at := t' }]⟩ now) := by
  constructor
  · intro db po now item line hdr cg hpo hlk hgr hline hbel hq0
    have hzero := commit_item_zero db po hdr.po_number cg.condition_grade_id now item
      line hdr hline hpo hbel hq0
    have hok := commit_receiving_ok db db ⟨po, [item]⟩ now hdr cg [] hpo hlk hgr
      (commit_items_single_ok po hdr.po_number cg.condition_grade_id now db db item [] hzero)
    simp [runTxn, hok]
  · intro db po now item t t' hq0
    cases hh : db.purchase_orders.find? (fun q => q.purchase_order_id == po) with
    | none =>
      simp [commit_receiving, get_po_header, hh,
            Bind.bind, Except.instMonad, Except.bind, Pure.pure, Except.pure,
            Functor.map, Except.map]
    | some hdr =>
      by_cases hlk : hdr.is_locked = true
      · cases hgr : db.condition_grades.find? (fun g => g.code == "UNKNOWN") with
        | none =>
          simp [commit_receiving, get_po_header, get_unknown_condition_grade_id, hh, hlk, hgr,
                Bind.bind, Except.instMonad, Except.bind, Pure.pure, Except.pure,
                Functor.map, Except.map]
        | some cg =>
          cases hline : db.po_items.find?
              (fun l => l.purchase_order_item_id == item.purchase_order_item_id) with
          | none =>
            simp [commit_receiving, get_po_header, get_unknown_condition_grade_id,
                  commit_items, commit_item, get_po_item_context, hh, hlk, hgr, hline,
                  Bind.bind, Except.instMonad, Except.bind, Pure.pure, Except.pure,
                  Functor.map, Except.map]
          | some line =>
            by_cases hbel : line.purchase_order_id = po
            · have hz1 := commit_item_zero db po hdr.po_number cg.condition_grade_id now
                { item with updated_at := t } line hdr hline hh hbel hq0
              have hz2 := commit_item_zero db po hdr.po_number cg.condition_grade_id now
                { item with updated_at := t' } line hdr hline hh hbel hq0
              rw [commit_receiving_ok db db ⟨po, [{ item with updated_at := t }]⟩ now hdr cg []
                    hh hlk hgr
                    (commit_items_single_ok po hdr.po_number cg.condition_grade_id now db db _ [] hz1),
                  commit_receiving_ok db db ⟨po, [{ item with updated_at := t' }]⟩ now hdr cg []
                    hh hlk hgr
                    (commit_items_single_ok po hdr.po_number cg.condition_grade_id now db db _ [] hz2)]
            · cases hpo2 : db.purchase_orders.find?
                  (fun q => q.purchase_order_id == line.purchase_order_id) with
              | none =>
                simp [commit_receiving, get_po_header, get_unknown_condition_grade_id,
                      commit_items, commit_item, get_po_item_context, hh, hlk, hgr, hline, hpo2, hbel,
                      Bind.bind, Except.instMonad, Except.bind, Pure.pure, Except.pure,
                      Functor.map, Except.map]
              | some hdr2 =>
                simp [commit_receiving, get_po_header, get_unknown_condition_grade_id,
                      commit_items, commit_item, get_po_item_context, hh, hlk, hgr, hline, hpo2, hbel,
                      Bind.bind, Except.instMonad, Except.bind, Pure.pure, Except.pure,
                      Functor.map, Except.map]
      · have hlk2 : hdr.is_locked = false := by simpa using hlk
        simp [commit_receiving, get_po_header, hh, hlk2,
              Bind.bind, Except.instMonad, Except.bind, Pure.pure, Except.pure,
              Functor.map, Except.map]

/-- Witness for C9 on the concrete fixture: a zero-quantity item commits
fine with a wildly stale token (999), changing nothing but the status
refresh, and the result equals the same commit with any other token. -/
theorem C9_zero_qty_skips_token_check_witness :
    runTxn dbZeroTokC9 (commit_receiving dbZeroTokC9
        ⟨1, [⟨101, 0, none, false, false, 999⟩]⟩ 11) =
      (refresh_po_status dbZeroTokC9 1 11, .ok []) ∧
    commit_receiving dbZeroTokC9 ⟨1, [⟨101, 0, none, false, false, 999⟩]⟩ 11 =
      commit_receiving dbZeroTokC9 ⟨1, [⟨101, 0, none, false, false, 10⟩]⟩ 11 := by
  constructor
  · exact C9_zero_qty_skips_token_check.1 dbZeroTokC9 1 11
      ⟨101, 0, none, false, false, 999⟩
      ⟨101, 1, 11, 21, 5, 0, "pending", "manual", some 2, 10⟩
      ⟨1, "EB001", 1, "open", true, 0, 0, 0, 0, 0, 5⟩ ⟨7, "UNKNOWN"⟩
      (by rfl) (by rfl) (by rfl) (by rfl) (by rfl) (by rfl)
  · exact C9_zero_qty_skips_token_check.2 dbZeroTokC9 1 11
      ⟨101, 0, none, false, false, 0⟩ 999 10 (by rfl)

/-- C10 (implicit): when the line's allocated_unit_cost is NULL at commit
time, the created cohort's allocated_unit_cost is written as 0, not NULL. -/
theorem C10_null_cost_coerced_to_zero :
    ∀ (db : DB) (po now : Nat) (item : ReceivingCommitItem)
      (line : PoLine) (hdr : PurchaseOrder) (cg : ConditionGrade),
      db.purchase_orders.find? (fun q => q.purchase_order_id == po) = some hdr →
      hdr.is_locked = true →
      db.condition_grades.find? (fun g => g.code == "UNKNOWN") = some cg →
      db.po_items.find? (fun l => l.purchase_order_item_id == item.purchase_order_item_id) = some line →
      line.purchase_order_id = po →
      0 < item.qty_to_receive →
      seller_sku_exists db
        (pyStrOr item.sku (build_sku_simple hdr.po_number item.purchase_order_item_id)) = false →
      db.po_items.countP (fun l => l.purchase_order_item_id == item.purchase_order_item_id) = 1 →
      line.updated_at = item.updated_at →
      line.allocated_unit_cost = none →
      ∃ db', runTxn db (commit_receiving db ⟨po, [item]⟩ now) =
          (db', .ok [db.next_inventory_item_id]) ∧
        ∃ cohort, db'.inventory_items = db.inventory_items ++ [cohort] ∧
          cohort.allocated_unit_cost = 0 := by
  intro db po now item line hdr cg hpo hlk hgr hline hbel hq hsku huniq htok hnull
  have hcount : db.po_items.countP
      (fun l => l.purchase_order_item_id == item.purchase_order_item_id &&
                l.updated_at == item.updated_at) = 1 := by
    have h := countP_conj_unique
      (fun l : PoLine => l.purchase_order_item_id == item.purchase_order_item_id)
      (fun l : PoLine => l.updated_at == item.updated_at) db.po_items line huniq hline
    simpa [htok] using h
  obtain ⟨ns, evs, hok⟩ := commit_receiving_single_pos db po now item line hdr cg
    hpo hlk hgr hline hbel hq hsku hcount
  rw [hnull] at hok
  refine ⟨refresh_po_status
              { db with
                  inventory_items := db.inventory_items ++
                    [{ inventory_item_id := db.next_inventory_item_id
                       purchase_order_item_id := item.purchase_order_item_id
                       variant_id := line.variant_id
                       seller_sku := pyStrOr item.sku
                         (build_sku_simple hdr.po_number item.purchase_order_item_id)
                       quantity := item.qty_to_receive
                       allocated_unit_cost := (0 : Rat)
                       condition_grade_id := cg.condition_grade_id
                       status := if item.damaged then "Damaged" else "Pending"
                       updated_at := now }]
                  receiving_events := db.receiving_events ++ evs
                  po_items := db.po_items.map
                    (updPoiRow item.purchase_order_item_id item.qty_to_receive ns
                      item.updated_at now)
                  next_inventory_item_id := db.next_inventory_item_id + 1 }
              po now, ?_,
            ⟨{ inventory_item_id := db.next_inventory_item_id
               purchase_order_item_id := item.purchase_order_item_id
               variant_id := line.variant_id
               seller_sku := pyStrOr item.sku
                 (build_sku_simple hdr.po_number item.purchase_order_item_id)
               quantity := item.qty_to_receive
               allocated_unit_cost := 0
               condition_grade_id := cg.condition_grade_id
               status := if item.damaged then "Damaged" else "Pending"
               updated_at := now }, ?_, rfl⟩⟩
  · rw [hok]
    rfl
  · rw [(refresh_po_status_frame _ po now).2.1]

/-- Witness for C10 on the concrete fixture: committing on a line whose
allocated_unit_cost is NULL yields a cohort whose cost is 0. -/
theorem C10_null_cost_coerced_to_zero_witness :
    ∃ db', runTxn dbCostC10 (commit_receiving dbCostC10
        ⟨1, [⟨101, 2, none, false, false, 10⟩]⟩ 11) = (db', .ok [1]) ∧
      ∃ cohort, db'.inventory_items = dbCostC10.inventory_items ++ [cohort] ∧
        cohort.allocated_unit_cost = 0 :=
  C10_null_cost_coerced_to_zero dbCostC10 1 11 ⟨101, 2, none, false, false, 10⟩
    ⟨101, 1, 11, 21, 5, 0, "pending", "manual", none, 10⟩
    ⟨1, "EB001", 1, "open", true, 0, 0, 0, 0, 0, 5⟩ ⟨7, "UNKNOWN"⟩
    (by rfl) (by rfl) (by rfl) (by rfl) (by rfl) (by decide) (by decide)
    (by decide) (by rfl) (by rfl)

/-- C6: items with qty_to_receive = 0 are skipped entirely — filtering them
out of the batch leaves the commit's outcome unchanged (no InventoryItem,
no events, no line change for them) — and an empty-items commit is a no-op
on lines, inventory and events that still runs the PO status refresh. -/
theorem C6_zero_skip_and_empty_noop :
    (∀ (db : DB) (req : ReceivingCommitRequest) (now : Nat) (hdr : PurchaseOrder),
       db.purchase_orders.find? (fun q => q.purchase_order_id == req.purchase_order_id) = some hdr →
       (∀ it ∈ req.items, it.qty_to_receive = 0 →
         ∃ l, db.po_items.find?
             (fun x => x.purchase_order_item_id == it.purchase_order_item_id) = some l ∧
           l.purchase_order_id = req.purchase_order_id) →
       commit_receiving db req now =
         commit_receiving db ⟨req.purchase_order_id,
           req.items.filter (fun it => !(it.qty_to_receive == 0))⟩ now) ∧
    (∀ (db : DB) (po now : Nat) (hdr : PurchaseOrder) (cg : ConditionGrade),
       db.purchase_orders.find? (fun q => q.purchase_order_id == po) = some hdr →
       hdr.is_locked = true →
       db.condition_grades.find? (fun g => g.code == "UNKNOWN") = some cg →
       runTxn db (commit_receiving db ⟨po, []⟩ now) =
         (refresh_po_status db po now, .ok []) ∧
       (refresh_po_status db po now).po_items = db.po_items ∧
       (refresh_po_status db po now).inventory_items = db.inventory_items ∧
       (refresh_po_status db po now).receiving_events = db.receiving_events) := by
  constructor
  · intro db req now hdr hpo hz
    by_cases hlk : hdr.is_locked = true
    · cases hgr : db.condition_grades.find? (fun g => g.code == "UNKNOWN") with
      | none =>
        simp [commit_receiving, get_po_header, get_unknown_condition_grade_id, hpo, hlk, hgr,
              Bind.bind, Except.instMonad, Except.bind, Pure.pure, Except.pure,
              Functor.map, Except.map]
      | some cg =>
        simp only [commit_receiving, get_po_header, get_unknown_condition_grade_id, hpo, hlk, hgr,
              Bind.bind, Except.instMonad, Except.bind, Pure.pure, Except.pure,
              Functor.map, Except.map]
        rw [commit_items_filter req.purchase_order_id hdr.po_number cg.condition_grade_id now
              req.items db hdr hpo hz]
    · have hlk2 : hdr.is_locked = false := by simpa using hlk
      simp [commit_receiving, get_po_header, hpo, hlk2,
            Bind.bind, Except.instMonad, Except.bind, Pure.pure, Except.pure,
            Functor.map, Except.map]
  · intro db po now hdr cg hpo hlk hgr
    have hok := commit_receiving_ok db db ⟨po, []⟩ now hdr cg [] hpo hlk hgr
      (commit_items_nil po hdr.po_number cg.condition_grade_id now db)
    refine ⟨by simp [runTxn, hok], ?_, ?_, ?_⟩
    · exact (refresh_po_status_frame db po now).1
    · exact (refresh_po_status_frame db po now).2.1
    · exact (refresh_po_status_frame db po now).2.2.1

/-- Witness for C6 on the concrete fixture: a batch holding only a
zero-quantity item equals the empty batch, and the empty batch is a pure
status refresh. -/
theorem C6_zero_skip_and_empty_noop_witness :
    commit_receiving dbZeroC6 ⟨1, [⟨101, 0, none, false, false, 999⟩]⟩ 11 =
      commit_receiving dbZeroC6 ⟨1, []⟩ 11 ∧
    runTxn dbZeroC6 (commit_receiving dbZeroC6 ⟨1, []⟩ 11) =
      (refresh_po_status dbZeroC6 1 11, .ok []) := by
  constructor
  · exact C6_zero_skip_and_empty_noop.1 dbZeroC6
      ⟨1, [⟨101, 0, none, false, false, 999⟩]⟩ 11
      ⟨1, "EB001", 1, "open", true, 0, 0, 0, 0, 0, 5⟩ (by rfl)
      (by intro it hit h0
          rw [List.mem_singleton] at hit
          subst hit
          exact ⟨⟨101, 1, 11, 21, 5, 2, "partial", "manual", some 2, 10⟩, by rfl, rfl⟩)
  · exact (C6_zero_skip_and_empty_noop.2 dbZeroC6 1 11
      ⟨1, "EB001", 1, "open", true, 0, 0, 0, 0, 0, 5⟩ ⟨7, "UNKNOWN"⟩
      (by rfl) (by rfl) (by rfl)).1

/-- Inversion of a successful commit: the header was found and locked, the
UNKNOWN grade present, the item loop succeeded, and the final state is the
refreshed loop state. -/
theorem commit_receiving_ok_inv (db : DB) (req : ReceivingCommitRequest) (now : Nat)
    (db' : DB) (ids : List Nat)
    (h : commit_receiving db req now = .ok (db', ids)) :
    ∃ hdr cg db1,
      db.purchase_orders.find?
        (fun q => q.purchase_order_id == req.purchase_order_id) = some hdr ∧
      hdr.is_locked = true ∧
      db.condition_grades.find? (fun g => g.code == "UNKNOWN") = some cg ∧
      commit_items req.purchase_order_id hdr.po_number cg.condition_grade_id now db
        req.items = .ok (db1, ids) ∧
      db' = refresh_po_status db1 req.purchase_order_id now := by
  cases hh : db.purchase_orders.find?
      (fun q => q.purchase_order_id == req.purchase_order_id) with
  | none =>
    simp [commit_receiving, get_po_header, hh,
          Bind.bind, Except.instMonad, Except.bind, Pure.pure, Except.pure,
          Functor.map, Except.map] at h
  | some hdr =>
    by_cases hlk : hdr.is_locked = true
    · cases hgr : db.condition_grades.find? (fun g => g.code == "UNKNOWN") with
      | none =>
        simp [commit_receiving, get_po_header, get_unknown_condition_grade_id, hh, hlk, hgr,
              Bind.bind, Except.instMonad, Except.bind, Pure.pure, Except.pure,
              Functor.map, Except.map] at h
      | some cg =>
        cases hci : commit_items req.purchase_order_id hdr.po_number cg.condition_grade_id
            now db req.items with
        | error e =>
          rw [commit_receiving_err db req now hdr cg e hh hlk hgr hci] at h
          exact Except.noConfusion h
        | ok r =>
          obtain ⟨db1, ids1⟩ := r
          rw [commit_receiving_ok db db1 req now hdr cg ids1 hh hlk hgr hci] at h
          injection h with h2
          obtain ⟨h3, h4⟩ := Prod.mk.inj h2
          exact ⟨hdr, cg, db1, rfl, hlk, rfl, by rw [hci, h4], h3.symm⟩
    · have hlk2 : hdr.is_locked = false := by simpa using hlk
      simp [commit_receiving, get_po_header, hh, hlk2,
            Bind.bind, Except.instMonad, Except.bind, Pure.pure, Except.pure,
            Functor.map, Except.map] at h

/-- Counterexample for C1: in the spec's own two-line scenario (expected 5
and 3, receive 5 of line A, 2 of line B with short=true) the code ends line
A received and line B short with a short event of quantity 1 — but the PO
status becomes partially_received (total 7 of 8 received), not the claimed
closed_with_exceptions: the code derives status from summed totals, not per
line. -/
theorem C1_scenario_partially_received_counterexample :
    (commit_receiving dbScenC1 reqScenC1 11).toOption.map (fun r =>
       r.1.purchase_orders.map (fun q => q.status)) = some ["partially_received"] ∧
    (commit_receiving dbScenC1 reqScenC1 11).toOption.map (fun r =>
       r.1.po_items.map (fun l => l.receive_status)) = some ["received", "short"] ∧
    (commit_receiving dbScenC1 reqScenC1 11).toOption.map (fun r =>
       (r.1.receiving_events.filter (fun e => e.event_type == "short")).map
         (fun e => e.quantity)) = some [1] ∧
    "partially_received" ≠ "closed_with_exceptions" :=
  ⟨rfl, rfl, rfl, by decide⟩

/-- C1 (amended): the PO status refresh after a receiving commit derives the
parent status from aggregate line totals — received when total received ≥
total expected with no short line, closed_with_exceptions when total
received ≥ total expected with at least one short line, partially_received
when 0 < total received < total expected, open otherwise, previous status
kept when nothing is expected; in the spec's two-line scenario line A ends
received, line B ends short with a short event of quantity 1, and the PO
status becomes partially_received (7 of 8 received). -/
theorem C1_po_status_aggregate_derivation :
    (∀ (db : DB) (req : ReceivingCommitRequest) (now : Nat) (db' : DB) (ids : List Nat),
       commit_receiving db req now = .ok (db', ids) →
       ∃ hdr hdr',
         db.purchase_orders.find?
           (fun q => q.purchase_order_id == req.purchase_order_id) = some hdr ∧
         db'.purchase_orders.find?
           (fun q => q.purchase_order_id == req.purchase_order_id) = some hdr' ∧
         hdr'.status = po_status_aggregate db'.po_items req.purchase_order_id hdr.status) ∧
    ((commit_receiving dbScenC1 reqScenC1 11).toOption.map (fun r =>
        (r.1.purchase_orders.map (fun q => q.status),
         r.1.po_items.map (fun l => (l.receive_status, l.quantity_received)),
         r.1.receiving_events.map (fun e => (e.event_type, e.quantity)))) =
      some (["partially_received"], [("received", 5), ("short", 2)],
            [("receive", 5), ("receive", 2), ("short", 1)])) := by
  constructor
  · intro db req now db' ids h
    obtain ⟨hdr, cg, db1, hpo, hlk, hgr, hci, hdb'⟩ :=
      commit_receiving_ok_inv db req now db' ids h
    obtain ⟨hpres, _, f, hf, hmap⟩ :=
      commit_items_ok_shape req.purchase_order_id hdr.po_number cg.condition_grade_id now
        req.items db db1 ids hci
    have hpo1 : db1.purchase_orders.find?
        (fun q => q.purchase_order_id == req.purchase_order_id) = some hdr := by
      rw [hpres]; exact hpo
    obtain ⟨hdr', hfind, hstat⟩ :=
      refresh_po_status_found db1 req.purchase_order_id now hdr hpo1
    refine ⟨hdr, hdr', hpo, ?_, ?_⟩
    · rw [hdb']; exact hfind
    · rw [hstat, hdb', (refresh_po_status_frame db1 req.purchase_order_id now).1]
  · rfl

/-- Witness for C1 on the concrete scenario fixture: the commit succeeds and
the resulting PO status matches the aggregate state machine applied to the
final lines and the prior status. -/
theorem C1_po_status_aggregate_derivation_witness :
    ∃ db' ids, commit_receiving dbScenC1 reqScenC1 11 = .ok (db', ids) ∧
      ∃ hdr hdr',
        dbScenC1.purchase_orders.find? (fun q => q.purchase_order_id == 1) = some hdr ∧
        db'.purchase_orders.find? (fun q => q.purchase_order_id == 1) = some hdr' ∧
        hdr'.status = po_status_aggregate db'.po_items 1 hdr.status :=
  ⟨_, _, rfl, C1_po_status_aggregate_derivation.1 dbScenC1 reqScenC1 11 _ _ rfl⟩
